import Mathlib

/-!
# Pusher event service of the Enjin C++ SDK

A shallow embedding of `src/events/EventTypeDef.hpp` and
`src/events/PusherEventService.cpp`, followed by theorems about the
event-type registry, listener registration, event dispatch, channel
subscription and the start/shutdown life cycle.

Conventions of the embedding

* A listener (`IEventListener&`) is compared by address in the source, so a
  listener is represented by its address, a natural number.
* Calls that leave the service (listener callbacks, log lines, requests to
  the Pusher client) are recorded in lists, oldest first.
* `on_event` takes listener callbacks to return normally and not to call back
  into the service while a dispatch is running; `on_event_throwing` and
  `on_event_reentrant` are the same member without the one and the other
  assumption.
* `std::optional` is `Option`; `.value()` on an empty optional is the failure
  `bad_optional_access`, and `operator->` on an empty optional or a null
  pointer is the failure `undefined_behaviour`.
-/

namespace enjin.sdk

/-! ## Models -/

namespace models

/-- The enumeration `models::EventType`. Its header is not among the sources;
the enumerators are the keys of `EventTypeDef::map`, taken in the order in
which the map lists them. -/
inductive EventType where
  | UNKNOWN
  | APP_CREATED
  | APP_DELETED
  | APP_LINKED
  | APP_LOCKED
  | APP_UNLINKED
  | APP_UNLOCKED
  | APP_UPDATED
  | BLOCKCHAIN_LOG_PROCESSED
  | MESSAGE_PROCESSED
  | PLAYER_CREATED
  | PLAYER_DELETED
  | PLAYER_LINKED
  | PLAYER_UNLINKED
  | PLAYER_UPDATED
  | ASSET_CREATED
  | ASSET_MELTED
  | ASSET_MINTED
  | ASSET_TRANSFERRED
  | ASSET_UPDATED
  | TRADE_COMPLETED
  | TRADE_CREATED
  | TRANSACTION_BROADCAST
  | TRANSACTION_CANCELED
  | TRANSACTION_DROPPED
  | TRANSACTION_EXECUTED
  | TRANSACTION_FAILED
  | TRANSACTION_PENDING
  | TRANSACTION_PROCESSING
  | TRANSACTION_UPDATED
  deriving DecidableEq, Repr

/-- The value `models::NotificationEvent(type, channel, data)` built by
`on_event`. -/
structure NotificationEvent where
  type : EventType
  channel : String
  data : String
  deriving DecidableEq, Repr

/-- The part of `models::PusherOptions` (the description the platform gives of the
Pusher connection) that `start` reads. -/
structure PusherOptions where
  cluster : Option String
  encrypted : Option Bool
  deriving DecidableEq, Repr

/-- The part of `models::Pusher` that `start` reads. -/
structure Pusher where
  key : Option String
  options : Option PusherOptions
  deriving DecidableEq, Repr

/-- The part of `models::Notifications` that `start` reads. -/
structure Notifications where
  pusher : Option Pusher
  deriving DecidableEq, Repr

/-- The part of `models::Platform` that `start` reads. -/
structure Platform where
  notifications : Option Notifications
  deriving DecidableEq, Repr

end models

open models

namespace events

/-! ## Event-type registry (`EventTypeDef.hpp`) -/

/-- The class `EventTypeDef`: an event type, its wire key and the channel
families it arrives on. The `name` member is derived from `type` by code that
is not among the sources and is read by none of the functions below. -/
structure EventTypeDef where
  type : EventType
  key : String
  channels : List String
  deriving DecidableEq, Repr

namespace EventTypeDef

/-- The private factory `EventTypeDef::create`. -/
def create (type : EventType) (key : String) (channels : List String) : EventTypeDef :=
  ⟨type, key, channels⟩

/-- The static table `EventTypeDef::map`, entry by entry. A `std::map` is
ordered by key, and the enumerators are declared in this order. -/
def map : List (EventType × EventTypeDef) :=
  [ (.UNKNOWN, create .UNKNOWN "" [""]),
    (.APP_CREATED, create .APP_CREATED "EnjinCloud\\Events\\AppCreated" ["app"]),
    (.APP_DELETED, create .APP_DELETED "EnjinCloud\\Events\\AppDeleted" ["app"]),
    (.APP_LINKED, create .APP_LINKED "EnjinCloud\\Events\\AppLinked" ["app", "wallet"]),
    (.APP_LOCKED, create .APP_LOCKED "EnjinCloud\\Events\\AppLocked" ["app"]),
    (.APP_UNLINKED, create .APP_UNLINKED "EnjinCloud\\Events\\AppUnlinked" ["app", "wallet"]),
    (.APP_UNLOCKED, create .APP_UNLOCKED "EnjinCloud\\Events\\AppUnlocked" ["app"]),
    (.APP_UPDATED, create .APP_UPDATED "EnjinCloud\\Events\\AppUpdated" ["app"]),
    (.BLOCKCHAIN_LOG_PROCESSED,
      create .BLOCKCHAIN_LOG_PROCESSED "EnjinCloud\\Events\\BlockchainLogProcessed"
        ["app", "asset", "wallet"]),
    (.MESSAGE_PROCESSED,
      create .MESSAGE_PROCESSED "EnjinCloud\\Events\\MessageProcessed"
        ["app", "asset", "wallet"]),
    (.PLAYER_CREATED,
      create .PLAYER_CREATED "EnjinCloud\\Events\\PlayerCreated" ["app", "player"]),
    (.PLAYER_DELETED,
      create .PLAYER_DELETED "EnjinCloud\\Events\\PlayerDeleted" ["app", "player"]),
    (.PLAYER_LINKED,
      create .PLAYER_LINKED "EnjinCloud\\Events\\PlayerLinked" ["app", "player", "wallet"]),
    (.PLAYER_UNLINKED,
      create .PLAYER_UNLINKED "EnjinCloud\\Events\\PlayerUnlinked" ["app", "player", "wallet"]),
    (.PLAYER_UPDATED,
      create .PLAYER_UPDATED "EnjinCloud\\Events\\PlayerUpdated" ["app", "player"]),
    (.ASSET_CREATED,
      create .ASSET_CREATED "EnjinCloud\\Events\\AssetCreated" ["app", "asset", "wallet"]),
    (.ASSET_MELTED,
      create .ASSET_MELTED "EnjinCloud\\Events\\AssetMelted" ["app", "asset", "wallet"]),
    (.ASSET_MINTED,
      create .ASSET_MINTED "EnjinCloud\\Events\\AssetMinted" ["app", "asset", "wallet"]),
    (.ASSET_TRANSFERRED,
      create .ASSET_TRANSFERRED "EnjinCloud\\Events\\AssetTransferred"
        ["app", "asset", "wallet"]),
    (.ASSET_UPDATED,
      create .ASSET_UPDATED "EnjinCloud\\Events\\AssetUpdated" ["app", "asset", "wallet"]),
    (.TRADE_COMPLETED,
      create .TRADE_COMPLETED "EnjinCloud\\Events\\TradeCompleted" ["app", "asset", "wallet"]),
    (.TRADE_CREATED,
      create .TRADE_CREATED "EnjinCloud\\Events\\TradeCreated" ["app", "asset", "wallet"]),
    (.TRANSACTION_BROADCAST,
      create .TRANSACTION_BROADCAST "EnjinCloud\\Events\\TransactionBroadcast"
        ["app", "asset", "wallet"]),
    (.TRANSACTION_CANCELED,
      create .TRANSACTION_CANCELED "EnjinCloud\\Events\\TransactionCanceled"
        ["app", "asset", "wallet"]),
    (.TRANSACTION_DROPPED,
      create .TRANSACTION_DROPPED "EnjinCloud\\Events\\TransactionDropped"
        ["app", "asset", "wallet"]),
    (.TRANSACTION_EXECUTED,
      create .TRANSACTION_EXECUTED "EnjinCloud\\Events\\TransactionExecuted"
        ["app", "asset", "wallet"]),
    (.TRANSACTION_FAILED,
      create .TRANSACTION_FAILED "EnjinCloud\\Events\\TransactionFailed"
        ["app", "asset", "wallet"]),
    (.TRANSACTION_PENDING,
      create .TRANSACTION_PENDING "EnjinCloud\\Events\\TransactionPending"
        ["app", "asset", "wallet"]),
    (.TRANSACTION_PROCESSING,
      create .TRANSACTION_PROCESSING "EnjinCloud\\Events\\TransactionProcessing"
        ["app", "asset", "wallet"]),
    (.TRANSACTION_UPDATED,
      create .TRANSACTION_UPDATED "EnjinCloud\\Events\\TransactionUpdated"
        ["app", "asset", "wallet"]) ]

/-- The entry `map[UNKNOWN]`, the fallback of the lookups. -/
def unknown : EventTypeDef := create .UNKNOWN "" [""]

/-- Reading `map` at an event type (`map[type]`, `map.at(type)`). -/
def at_type (t : EventType) : EventTypeDef :=
  match map.find? (fun e => e.1 == t) with
  | some e => e.2
  | none => unknown

/-- Modelled from the spec: the body of `EventTypeDef::values` is not among
the sources. The spec gives `all()` as the definitions in stable declaration
order; here they are the values of `map` in the order of the table. -/
def values : List EventTypeDef := map.map Prod.snd

/-- Modelled from the spec: the body of `EventTypeDef::get_from_key` is not
among the sources. The spec gives `lookupByKey(key)` as the definition whose
wire key matches exactly, and the `Unknown` definition when `key` matches
nothing; it never fails. -/
def get_from_key (key : String) : EventTypeDef :=
  match values.find? (fun d => d.key == key) with
  | some d => d
  | none => unknown

/-- Modelled from the spec: the body of `EventTypeDef::filter_by_channel_types`
is not among the sources. The spec gives `filterByChannelFamilies(families)`
as every non-Unknown definition whose channel families intersect `families`,
in declaration order. -/
def filter_by_channel_types (channels : List String) : List EventTypeDef :=
  values.filter (fun d => d.type != .UNKNOWN && d.channels.any (fun f => channels.contains f))

/-- Modelled from the spec: the family of a channel. The spec derives every
topic as `family.platform-id.identifier-path`, so the family is the part of the
topic before its first dot. -/
def channel_family (channel : String) : String :=
  String.mk (channel.toList.takeWhile (fun ch => ch != '.'))

/-- Modelled from the spec: `EventTypeDef::filter_by_channel_type`, which
`bind` calls with the channel, is neither declared nor defined among the
sources. The spec has `subscribe` issue, via `filterByChannelFamilies`, the
bind requests for every event key relevant to the family of the channel: the
result is what the family filter gives for the families of the channels. -/
def filter_by_channel_type (channels : List String) : List EventTypeDef :=
  filter_by_channel_types (channels.map channel_family)

end EventTypeDef

/-! ## Listener registrations -/

/-- The class `EventListenerRegistration`: a listener, held by address, and the
matcher that decides which event types it is notified of. -/
structure EventListenerRegistration where
  listener : Nat
  matcher : EventType → Bool

namespace EventListenerRegistration

/-- The builder `EventListenerRegistration::RegistrationListenerConfiguration`. -/
structure RegistrationListenerConfiguration where
  listener : Nat
  matcher : EventType → Bool

namespace RegistrationListenerConfiguration

/-- Modelled from the spec: the constructor of the configuration is not among
the sources. The spec gives the default filter `Always`, which matches every
category other than `Unknown`. -/
def new (listener : Nat) : RegistrationListenerConfiguration :=
  ⟨listener, fun c => c != .UNKNOWN⟩

/-- Modelled from the spec: `with_matcher` is not among the sources. The spec
gives `Predicate(p)`, which matches iff `p(c)` is true. -/
def with_matcher (cfg : RegistrationListenerConfiguration) (matcher : EventType → Bool) :
    RegistrationListenerConfiguration :=
  { cfg with matcher := matcher }

/-- Modelled from the spec: `with_allowed_events` is not among the sources. The
spec gives `AllowList(S)`, which matches iff `c ∈ S`. -/
def with_allowed_events (cfg : RegistrationListenerConfiguration) (types : List EventType) :
    RegistrationListenerConfiguration :=
  { cfg with matcher := fun c => types.contains c }

/-- Modelled from the spec: `with_ignored_events` is not among the sources. The
spec gives `DenyList(S)`, which matches iff `c ∉ S`. -/
def with_ignored_events (cfg : RegistrationListenerConfiguration) (types : List EventType) :
    RegistrationListenerConfiguration :=
  { cfg with matcher := fun c => !types.contains c }

/-- The call `configuration.create()`: a fresh registration for the configured
listener and matcher. -/
def create (cfg : RegistrationListenerConfiguration) : EventListenerRegistration :=
  ⟨cfg.listener, cfg.matcher⟩

end RegistrationListenerConfiguration

end EventListenerRegistration

open EventListenerRegistration

/-! ## The Pusher client -/

namespace pusher

/-- The enumeration `pusher::ConnectionState`; `ALL` is the wildcard used for
callback filtering. -/
inductive ConnectionState where
  | ALL
  | CONNECTING
  | CONNECTED
  | DISCONNECTING
  | DISCONNECTED
  deriving DecidableEq, Repr

/-- The per-channel subscription state of the spec. -/
inductive SubscriptionState where
  | Unsubscribed
  | Pending
  | Subscribed
  deriving DecidableEq, Repr

/-- The options object `pusher::PusherOptions` built by `start`. -/
structure PusherOptions where
  cluster : String
  encrypted : Bool
  deriving DecidableEq, Repr

/-- A request made of the transport by the client. `bind` carries the wire key
and whether the listener handed over is the dispatch listener of the service (true)
or a null pointer (false). -/
inductive Request where
  | connect
  | disconnect
  | subscribe (channel : String)
  | unsubscribe (channel : String)
  | bind (key : String) (listener : Bool)
  deriving DecidableEq, Repr

/-- An event delivered by the transport: `get_event_name`, `get_channel_name`
and `get_data` of `pusher::PusherEvent`. -/
structure PusherEvent where
  event_name : Option String
  channel_name : Option String
  data : Option String
  deriving DecidableEq, Repr

/-- Modelled from the spec: the class `pusher::PusherClient` is not among the
sources. It holds the connection state reported by the transport, the map from
channel to subscription state, and the requests it has made of the transport,
oldest first. -/
structure PusherClient where
  key : String
  options : PusherOptions
  state : ConnectionState
  channels : String → SubscriptionState
  requests : List Request

namespace PusherClient

/-- Modelled from the spec: the constructor of `PusherClient` is not among the
sources. A new client has made no request and holds no subscription; its
connection state is taken to be `DISCONNECTED` until the transport reports
otherwise. -/
def create (key : String) (options : PusherOptions) : PusherClient :=
  ⟨key, options, .DISCONNECTED, fun _ => .Unsubscribed, []⟩

/-- Modelled from the spec: `connect()` is fire-and-forget. The request is
recorded; the connection state changes only when the transport reports it. -/
def connect (c : PusherClient) : PusherClient :=
  { c with requests := c.requests ++ [.connect] }

/-- Modelled from the spec: `disconnect()` is fire-and-forget. The request is
recorded; the spec does not say which state the client reports afterwards, and
the state is left as it was until the transport reports a change. -/
def disconnect (c : PusherClient) : PusherClient :=
  { c with requests := c.requests ++ [.disconnect] }

/-- Modelled from the spec: the connection-state notification of the transport. -/
def connection_state_changed (c : PusherClient) (state : ConnectionState) : PusherClient :=
  { c with state := state }

/-- The accessor `get_state()`. -/
def get_state (c : PusherClient) : ConnectionState := c.state

/-- Modelled from the spec: `isSubscribed(channel)` is a pure map read. -/
def is_subscribed (c : PusherClient) (channel : String) : Bool :=
  c.channels channel == .Subscribed

/-- Modelled from the spec: `isSubscribedOrPending(channel)` is a pure map
read. -/
def is_subscribed_or_pending (c : PusherClient) (channel : String) : Bool :=
  c.channels channel == .Subscribed || c.channels channel == .Pending

/-- Modelled from the spec: sending the subscribe control message marks the
channel `Pending`. -/
def subscribe (c : PusherClient) (channel : String) : PusherClient :=
  { c with
    channels := fun ch => if ch = channel then .Pending else c.channels ch
    requests := c.requests ++ [.subscribe channel] }

/-- Modelled from the spec: sending the unsubscribe control message marks the
channel `Unsubscribed`. -/
def unsubscribe (c : PusherClient) (channel : String) : PusherClient :=
  { c with
    channels := fun ch => if ch = channel then .Unsubscribed else c.channels ch
    requests := c.requests ++ [.unsubscribe channel] }

/-- Modelled from the spec: the acknowledgment of a subscription by the transport
moves the channel from `Pending` to `Subscribed`. -/
def subscription_succeeded (c : PusherClient) (channel : String) : PusherClient :=
  { c with
    channels := fun ch =>
      if ch = channel ∧ c.channels channel = .Pending then .Subscribed else c.channels ch }

/-- Modelled from the spec: `bind(wireKey, callback)` registers interest in a
wire key; the request is recorded. -/
def bind (c : PusherClient) (key : String) (listener : Bool) : PusherClient :=
  { c with requests := c.requests ++ [.bind key listener] }

end PusherClient

end pusher

open pusher

/-! ## The service (`PusherEventService.cpp`) -/

namespace utils

/-- The enumeration `utils::LogLevel`, as far as the service uses it. -/
inductive LogLevel where
  | INFO
  | WARN
  | SEVERE
  deriving DecidableEq, Repr

end utils

open utils

/-- How a call can fail: `std::bad_optional_access` thrown by `.value()` on an
empty optional, the undefined behaviour of `operator->` on an empty optional
or a null pointer, and the failure `InvalidChannelIdentifier` with which the
spec has a channel constructor reject a malformed identifier. -/
inductive Failure where
  | bad_optional_access
  | undefined_behaviour
  | invalid_channel_identifier
  deriving DecidableEq, Repr

/-- The class `PusherEventServiceImpl`: the owned Pusher client, null until
`init_client` has run. The three handler slots are written by the setters and
read by the callbacks of the client only; no function below reads them. -/
structure PusherEventServiceImpl where
  client : Option PusherClient

/-- The accessor `PusherEventServiceImpl::get_client`. -/
def PusherEventServiceImpl.get_client (impl : PusherEventServiceImpl) : Option PusherClient :=
  impl.client

/-- The class `PusherEventService`. `logger_provider` and `listener` record
whether the respective pointer is non-null. -/
structure PusherEventService where
  impl : PusherEventServiceImpl
  platform : Option Platform
  logger_provider : Bool
  listeners : List EventListenerRegistration
  listener : Bool

namespace PusherEventService

/-- The two-argument constructor: no platform, no client, no listener. -/
def new (logger_provider : Bool) : PusherEventService :=
  ⟨⟨none⟩, none, logger_provider, [], false⟩

/-- The three-argument constructor, which also stores the platform. -/
def new_with_platform (logger_provider : Bool) (platform : Platform) : PusherEventService :=
  ⟨⟨none⟩, some platform, logger_provider, [], false⟩

/-- What a dispatch does outside the service: the lines handed to the logger
and the callbacks made, each as the address of the listener and the event. -/
structure Dispatch where
  log : List (LogLevel × String)
  notified : List (Nat × NotificationEvent)
  deriving DecidableEq, Repr

/-- The line logged when a logger provider is present. -/
def log_line (service : PusherEventService) (level : LogLevel) (text : String) :
    List (LogLevel × String) :=
  if service.logger_provider then [(level, text)] else []

/-- The loop at the end of `on_event`: each registration in turn, notified when
its matcher accepts the type of the event. -/
def notify_listeners : List EventListenerRegistration → NotificationEvent →
    List (Nat × NotificationEvent)
  | [], _ => []
  | registration :: rest, notification_event =>
    if registration.matcher notification_event.type then
      (registration.listener, notification_event) :: notify_listeners rest notification_event
    else
      notify_listeners rest notification_event

/-- The callback `PusherEventListener::on_event`. -/
def on_event (service : PusherEventService) (event : PusherEvent) : Dispatch :=
  let key := event.event_name.getD ""
  let channel := event.channel_name.getD ""
  let message := event.data.getD ""
  let received := log_line service .INFO
    ("Received event " ++ key ++ " on channel " ++ channel ++ " with results " ++ message)
  if service.listeners.isEmpty then
    ⟨received ++ log_line service .INFO "No registered listener when event was received", []⟩
  else
    let d := EventTypeDef.get_from_key key
    if d.type = .UNKNOWN then
      ⟨received ++ log_line service .WARN ("Unknown event type for key " ++ d.key), []⟩
    else
      let notification_event : NotificationEvent := ⟨d.type, channel, message⟩
      ⟨received, notify_listeners service.listeners notification_event⟩

/-- The member `PusherEventServiceImpl::init_client`: a new client replaces the
old one and is asked to connect. The two handlers installed on the client run
only when the transport calls back. -/
def init_client (service : PusherEventService) (key : String) (options : pusher.PusherOptions) :
    PusherEventService :=
  { service with impl := ⟨some (PusherClient.create key options).connect⟩ }

/-- The member `shutdown()`. -/
def shutdown (service : PusherEventService) : PusherEventService :=
  match service.impl.get_client with
  | some pusher_client => { service with impl := ⟨some pusher_client.disconnect⟩ }
  | none => service

/-- The member `start()`. -/
def start (service : PusherEventService) : Except Failure PusherEventService :=
  let service := service.shutdown
  match service.platform with
  | none => .error .undefined_behaviour
  | some platform =>
    match platform.notifications with
    | none => .ok service
    | some notifications =>
      match notifications.pusher with
      | none => .ok service
      | some pusher =>
        match pusher.options with
        | none => .ok service
        | some pusher_options =>
          let key := pusher.key
          let cluster := pusher_options.cluster
          let encrypted := pusher_options.encrypted
          if key.isNone || key == some "" || cluster.isNone || cluster == some "" then
            .ok service
          else
            match cluster, encrypted, key with
            | some cluster, some encrypted, some key =>
              .ok (init_client { service with listener := true } key ⟨cluster, encrypted⟩)
            | _, _, _ => .error .bad_optional_access

/-- The overload `start(platform)`, which stores the platform first. -/
def start_with (service : PusherEventService) (platform : Platform) :
    Except Failure PusherEventService :=
  start { service with platform := some platform }

/-- The member `is_connected()`. -/
def is_connected (service : PusherEventService) : Bool :=
  match service.impl.get_client with
  | some pusher_client => pusher_client.get_state == .CONNECTED
  | none => false

/-- The member `is_registered(listener)`. -/
def is_registered (service : PusherEventService) (listener : Nat) : Bool :=
  (service.listeners.find? (fun r => r.listener == listener)).isSome

/-- The member `cache_registration(configuration)`: the registration handed
back and the service afterwards. -/
def cache_registration (service : PusherEventService)
    (configuration : RegistrationListenerConfiguration) :
    EventListenerRegistration × PusherEventService :=
  match service.listeners.find? (fun r => r.listener == configuration.listener) with
  | some r => (r, service)
  | none =>
    let registration := configuration.create
    (registration, { service with listeners := service.listeners ++ [registration] })

/-- The member `register_listener(listener)`. -/
def register_listener (service : PusherEventService) (listener : Nat) :
    EventListenerRegistration × PusherEventService :=
  service.cache_registration (RegistrationListenerConfiguration.new listener)

/-- The member `register_listener_with_matcher(listener, matcher)`. -/
def register_listener_with_matcher (service : PusherEventService) (listener : Nat)
    (matcher : EventType → Bool) : EventListenerRegistration × PusherEventService :=
  service.cache_registration ((RegistrationListenerConfiguration.new listener).with_matcher matcher)

/-- The member `register_listener_including_types(listener, types)`. -/
def register_listener_including_types (service : PusherEventService) (listener : Nat)
    (types : List EventType) : EventListenerRegistration × PusherEventService :=
  service.cache_registration
    ((RegistrationListenerConfiguration.new listener).with_allowed_events types)

/-- The member `register_listener_excluding_types(listener, types)`. -/
def register_listener_excluding_types (service : PusherEventService) (listener : Nat)
    (types : List EventType) : EventListenerRegistration × PusherEventService :=
  service.cache_registration
    ((RegistrationListenerConfiguration.new listener).with_ignored_events types)

/-- The member `unregister_listener(listener)`: the first registration of the
listener, if there is one, is erased. -/
def unregister_listener (service : PusherEventService) (listener : Nat) : PusherEventService :=
  { service with listeners := service.listeners.eraseP (fun r => r.listener == listener) }

/-- The private member `bind(channel)`, which calls
`EventTypeDef::filter_by_channel_type` with the one-element list holding the
channel. -/
def bind (service : PusherEventService) (channel : String) :
    Except Failure PusherEventService :=
  let defs := EventTypeDef.filter_by_channel_type [channel]
  match service.impl.get_client with
  | some pusher_client =>
    .ok { service with
          impl := ⟨some (defs.foldl (fun c d => c.bind d.key service.listener) pusher_client)⟩ }
  | none => if defs.isEmpty then .ok service else .error .undefined_behaviour

/-- The member `subscribe(channel)`. -/
def subscribe (service : PusherEventService) (channel : String) :
    Except Failure PusherEventService :=
  match service.impl.get_client with
  | none => .ok service
  | some pusher_client =>
    if pusher_client.is_subscribed_or_pending channel then
      .ok service
    else
      bind { service with impl := ⟨some (pusher_client.subscribe channel)⟩ } channel

/-- The member `unsubscribe(channel)`. -/
def unsubscribe (service : PusherEventService) (channel : String) : PusherEventService :=
  match service.impl.get_client with
  | none => service
  | some pusher_client =>
    if !pusher_client.is_subscribed channel then
      service
    else
      { service with impl := ⟨some (pusher_client.unsubscribe channel)⟩ }

/-- Modelled from the spec: the channel classes `ProjectChannel`,
`PlayerChannel`, `AssetChannel` and `WalletChannel` are not among the sources.
The spec gives one pure constructor for each channel shape, which checks its
identifiers and fails with `InvalidChannelIdentifier` on a malformed one, and
whose output is the canonical topic string. The outcome of
`ProjectChannel(platform, project).channel()` and of its three siblings, a
topic or a failure, is a function of the arguments and a parameter of the
adapters. -/
structure ChannelNames where
  ProjectChannel : Platform → Int → Except Failure String
  PlayerChannel : Platform → Int → String → Except Failure String
  AssetChannel : Platform → String → Except Failure String
  WalletChannel : Platform → String → Except Failure String

/-- The read `platform.value()`. -/
def platform_value (service : PusherEventService) : Except Failure Platform :=
  match service.platform with
  | some platform => .ok platform
  | none => .error .bad_optional_access

/-- The member `subscribe_to_project(project)`. -/
def subscribe_to_project (names : ChannelNames) (service : PusherEventService) (project : Int) :
    Except Failure PusherEventService := do
  let platform ← service.platform_value
  let channel ← names.ProjectChannel platform project
  service.subscribe channel

/-- The member `unsubscribe_to_project(project)`. -/
def unsubscribe_to_project (names : ChannelNames) (service : PusherEventService)
    (project : Int) : Except Failure PusherEventService := do
  let platform ← service.platform_value
  let channel ← names.ProjectChannel platform project
  .ok (service.unsubscribe channel)

/-- The member `subscribe_to_player(project, player)`. -/
def subscribe_to_player (names : ChannelNames) (service : PusherEventService) (project : Int)
    (player : String) : Except Failure PusherEventService := do
  let platform ← service.platform_value
  let channel ← names.PlayerChannel platform project player
  service.subscribe channel

/-- The member `unsubscribe_to_player(project, player)`. -/
def unsubscribe_to_player (names : ChannelNames) (service : PusherEventService) (project : Int)
    (player : String) : Except Failure PusherEventService := do
  let platform ← service.platform_value
  let channel ← names.PlayerChannel platform project player
  .ok (service.unsubscribe channel)

/-- The member `subscribe_to_asset(asset)`. -/
def subscribe_to_asset (names : ChannelNames) (service : PusherEventService) (asset : String) :
    Except Failure PusherEventService := do
  let platform ← service.platform_value
  let channel ← names.AssetChannel platform asset
  service.subscribe channel

/-- The member `unsubscribe_to_asset(asset)`. -/
def unsubscribe_to_asset (names : ChannelNames) (service : PusherEventService)
    (asset : String) : Except Failure PusherEventService := do
  let platform ← service.platform_value
  let channel ← names.AssetChannel platform asset
  .ok (service.unsubscribe channel)

/-- The member `subscribe_to_wallet(wallet)`. -/
def subscribe_to_wallet (names : ChannelNames) (service : PusherEventService)
    (wallet : String) : Except Failure PusherEventService := do
  let platform ← service.platform_value
  let channel ← names.WalletChannel platform wallet
  service.subscribe channel

/-- The member `unsubscribe_to_wallet(wallet)`. -/
def unsubscribe_to_wallet (names : ChannelNames) (service : PusherEventService)
    (wallet : String) : Except Failure PusherEventService := do
  let platform ← service.platform_value
  let channel ← names.WalletChannel platform wallet
  .ok (service.unsubscribe channel)

/-- A call that changes the listener collection: one of the four register
members or `unregister_listener`. -/
inductive ListenerCall where
  | register_listener (listener : Nat)
  | register_listener_with_matcher (listener : Nat) (matcher : EventType → Bool)
  | register_listener_including_types (listener : Nat) (types : List EventType)
  | register_listener_excluding_types (listener : Nat) (types : List EventType)
  | unregister_listener (listener : Nat)

/-- The service after one call on the listener collection. -/
def call (service : PusherEventService) : ListenerCall → PusherEventService
  | .register_listener l => (service.register_listener l).2
  | .register_listener_with_matcher l m => (service.register_listener_with_matcher l m).2
  | .register_listener_including_types l ts => (service.register_listener_including_types l ts).2
  | .register_listener_excluding_types l ts => (service.register_listener_excluding_types l ts).2
  | .unregister_listener l => service.unregister_listener l

/-- The service after a sequence of calls, made from left to right. -/
def calls (service : PusherEventService) (cs : List ListenerCall) : PusherEventService :=
  cs.foldl call service

/-- The requests the client of the service has made of the transport; none when
there is no client. -/
def requests (service : PusherEventService) : List Request :=
  match service.impl.get_client with
  | some pusher_client => pusher_client.requests
  | none => []

/-- The subscription state of a channel as the client of the service holds it;
`Unsubscribed` when there is no client. -/
def subscription_state (service : PusherEventService) (channel : String) : SubscriptionState :=
  match service.impl.get_client with
  | some pusher_client => pusher_client.channels channel
  | none => .Unsubscribed

end PusherEventService

end events

end enjin.sdk

namespace enjin.sdk.events.PusherEventService
open enjin.sdk.models enjin.sdk.events.pusher enjin.sdk.events.EventListenerRegistration

/-! ## Values used in the worked cases -/

/-- The wire event of the asset-minted case. -/
def asset_minted_event : PusherEvent :=
  ⟨some "EnjinCloud\\Events\\AssetMinted", some "asset.mainnet.0xABC", some "\x7b...\x7d"⟩

/-- The notification the asset-minted case delivers. -/
def asset_minted_notification : NotificationEvent :=
  ⟨.ASSET_MINTED, "asset.mainnet.0xABC", "\x7b...\x7d"⟩

/-- Listener 1 with the default filter. -/
def registration_default : EventListenerRegistration :=
  (RegistrationListenerConfiguration.new 1).create

/-- Listener 2 with a deny-list holding `ASSET_MINTED`. -/
def registration_deny : EventListenerRegistration :=
  ((RegistrationListenerConfiguration.new 2).with_ignored_events [.ASSET_MINTED]).create

/-- Listener 3 with an allow-list holding `ASSET_MINTED`. -/
def registration_allow : EventListenerRegistration :=
  ((RegistrationListenerConfiguration.new 3).with_allowed_events [.ASSET_MINTED]).create

/-- A service without client that holds the three registrations above. -/
def service_three_listeners : PusherEventService :=
  ⟨⟨none⟩, none, true, [registration_default, registration_deny, registration_allow], false⟩

/-- A player-created event. -/
def player_created_event : PusherEvent :=
  ⟨some "EnjinCloud\\Events\\PlayerCreated", some "player.mainnet.5.7", some "\x7b...\x7d"⟩

/-- Five calls on the listener collection: listener 1 is registered twice with
different filters, listener 2 is registered and unregistered, listener 3 is
registered. -/
def five_calls : List ListenerCall :=
  [ .register_listener_including_types 1 [.ASSET_MINTED],
    .register_listener 2,
    .register_listener_with_matcher 1 (fun _ => true),
    .unregister_listener 2,
    .register_listener_excluding_types 3 [.PLAYER_CREATED] ]

/-- A platform whose notification settings are complete. -/
def complete_platform : Platform :=
  ⟨some ⟨some ⟨some "app-key", some ⟨some "eu", some true⟩⟩⟩⟩

/-- The client that `start` creates for `complete_platform`. -/
def started_client : PusherClient :=
  (PusherClient.create "app-key" ⟨"eu", true⟩).connect

/-- The service after a successful `start` on `complete_platform`. -/
def started_service : PusherEventService :=
  ⟨⟨some started_client⟩, some complete_platform, true, [], true⟩

/-- The started client once `asset.mainnet.0xABC` has been subscribed and the
transport has acknowledged the subscription. -/
def subscribed_client : PusherClient :=
  ((started_client.subscribe "asset.mainnet.0xABC").subscription_succeeded
    "asset.mainnet.0xABC")

/-- The started service holding `subscribed_client`. -/
def subscribed_service : PusherEventService :=
  ⟨⟨some subscribed_client⟩, some complete_platform, true, [], true⟩

/-- Channel constructors for the worked cases: topics of the form
`family.mainnet.identifiers`; a project id that is not positive, an empty
player or asset id and a blank wallet address are rejected. -/
def example_names : ChannelNames :=
  ⟨fun _ project =>
     if project ≤ 0 then .error .invalid_channel_identifier
     else .ok ("project.mainnet." ++ toString project),
   fun _ project player =>
     if project ≤ 0 ∨ player = "" then .error .invalid_channel_identifier
     else .ok ("player.mainnet." ++ toString project ++ "." ++ player),
   fun _ asset =>
     if asset = "" then .error .invalid_channel_identifier
     else .ok ("asset.mainnet." ++ asset),
   fun _ wallet =>
     if wallet.toList.all Char.isWhitespace then .error .invalid_channel_identifier
     else .ok ("wallet.mainnet." ++ wallet)⟩

/-! ## Dispatch when a callback throws -/

/-- The loop at the end of `on_event` when `notification_received` may throw:
`throws L` tells whether the callback of the listener at address `L` throws.
The loop is not inside a `try` block, so the first exception ends it. The
result is the callbacks made, the throwing one included, and the address of the
listener whose callback threw, if one did. -/
def notify_listeners_throwing (throws : Nat → Bool) :
    List EventListenerRegistration → NotificationEvent →
      List (Nat × NotificationEvent) × Option Nat
  | [], _ => ([], none)
  | registration :: rest, notification_event =>
    if registration.matcher notification_event.type then
      if throws registration.listener then
        ([(registration.listener, notification_event)], some registration.listener)
      else
        let later := notify_listeners_throwing throws rest notification_event
        ((registration.listener, notification_event) :: later.1, later.2)
    else
      notify_listeners_throwing throws rest notification_event

/-- The callback `PusherEventListener::on_event` when `notification_received`
may throw. The second component is `some L` when the callback of listener `L`
threw: `on_event` has no handler, so the exception leaves it towards the
caller, the transport. -/
def on_event_throwing (throws : Nat → Bool) (service : PusherEventService)
    (event : PusherEvent) : Dispatch × Option Nat :=
  let key := event.event_name.getD ""
  let channel := event.channel_name.getD ""
  let message := event.data.getD ""
  let received := log_line service .INFO
    ("Received event " ++ key ++ " on channel " ++ channel ++ " with results " ++ message)
  if service.listeners.isEmpty then
    (⟨received ++ log_line service .INFO "No registered listener when event was received", []⟩,
      none)
  else
    let d := EventTypeDef.get_from_key key
    if d.type = .UNKNOWN then
      (⟨received ++ log_line service .WARN ("Unknown event type for key " ++ d.key), []⟩, none)
    else
      let notification_event : NotificationEvent := ⟨d.type, channel, message⟩
      let outcome := notify_listeners_throwing throws service.listeners notification_event
      (⟨received, outcome.1⟩, outcome.2)

/-! ## Subscription reads -/

/-- The member `is_subscribed_to_project(project)`. The body calls
`impl->get_client()->is_subscribed(...)`: the client pointer is dereferenced
without a null test, then `platform.value()` is read and the channel is
constructed for the topic. -/
def is_subscribed_to_project (names : ChannelNames) (service : PusherEventService)
    (project : Int) : Except Failure Bool :=
  match service.impl.get_client with
  | none => .error .undefined_behaviour
  | some pusher_client => do
    let platform ← service.platform_value
    let channel ← names.ProjectChannel platform project
    .ok (pusher_client.is_subscribed channel)

/-- The member `is_subscribed_to_player(project, player)`. -/
def is_subscribed_to_player (names : ChannelNames) (service : PusherEventService)
    (project : Int) (player : String) : Except Failure Bool :=
  match service.impl.get_client with
  | none => .error .undefined_behaviour
  | some pusher_client => do
    let platform ← service.platform_value
    let channel ← names.PlayerChannel platform project player
    .ok (pusher_client.is_subscribed channel)

/-- The member `is_subscribed_to_asset(asset)`. -/
def is_subscribed_to_asset (names : ChannelNames) (service : PusherEventService)
    (asset : String) : Except Failure Bool :=
  match service.impl.get_client with
  | none => .error .undefined_behaviour
  | some pusher_client => do
    let platform ← service.platform_value
    let channel ← names.AssetChannel platform asset
    .ok (pusher_client.is_subscribed channel)

/-- The member `is_subscribed_to_wallet(wallet)`. -/
def is_subscribed_to_wallet (names : ChannelNames) (service : PusherEventService)
    (wallet : String) : Except Failure Bool :=
  match service.impl.get_client with
  | none => .error .undefined_behaviour
  | some pusher_client => do
    let platform ← service.platform_value
    let channel ← names.WalletChannel platform wallet
    .ok (pusher_client.is_subscribed channel)

/-! ## Dispatch when a callback calls back into the service -/

/-- Whether a call changes the vector `listeners`: a register member appends
when the listener is not registered yet, `unregister_listener` erases when it
is registered. -/
def changes_listeners (service : PusherEventService) : ListenerCall → Bool
  | .register_listener l => !service.is_registered l
  | .register_listener_with_matcher l _ => !service.is_registered l
  | .register_listener_including_types l _ => !service.is_registered l
  | .register_listener_excluding_types l _ => !service.is_registered l
  | .unregister_listener l => service.is_registered l

/-- Whether one of the calls of a sequence, made from left to right, changes
the vector `listeners`. -/
def calls_change_listeners : PusherEventService → List ListenerCall → Bool
  | _, [] => false
  | service, c :: cs =>
    service.changes_listeners c || calls_change_listeners (service.call c) cs

/-- The loop at the end of `on_event` when `notification_received` calls back
into the service: `reaction L` is the sequence of calls on the listener
collection that the callback of listener `L` makes while it runs. The loop is a
range-based `for` over the vector `service->listeners` itself, not over a copy:
`push_back` and `erase` invalidate the iterators the loop holds, so going on
after a callback that changed the vector is undefined behaviour. The list
argument holds the registrations the loop has still to visit. -/
def notify_listeners_reentrant (reaction : Nat → List ListenerCall) :
    PusherEventService → List EventListenerRegistration → NotificationEvent →
      Except Failure (List (Nat × NotificationEvent) × PusherEventService)
  | service, [], _ => .ok ([], service)
  | service, registration :: rest, notification_event =>
    if registration.matcher notification_event.type then
      if calls_change_listeners service (reaction registration.listener) then
        .error .undefined_behaviour
      else
        match notify_listeners_reentrant reaction
            (service.calls (reaction registration.listener)) rest notification_event with
        | .ok later => .ok ((registration.listener, notification_event) :: later.1, later.2)
        | .error e => .error e
    else
      notify_listeners_reentrant reaction service rest notification_event

/-- The callback `PusherEventListener::on_event` when `notification_received`
calls back into the service: the dispatch and the service afterwards. -/
def on_event_reentrant (reaction : Nat → List ListenerCall) (service : PusherEventService)
    (event : PusherEvent) : Except Failure (Dispatch × PusherEventService) :=
  let key := event.event_name.getD ""
  let channel := event.channel_name.getD ""
  let message := event.data.getD ""
  let received := log_line service .INFO
    ("Received event " ++ key ++ " on channel " ++ channel ++ " with results " ++ message)
  if service.listeners.isEmpty then
    .ok (⟨received ++ log_line service .INFO "No registered listener when event was received",
          []⟩, service)
  else
    let d := EventTypeDef.get_from_key key
    if d.type = .UNKNOWN then
      .ok (⟨received ++ log_line service .WARN ("Unknown event type for key " ++ d.key), []⟩,
        service)
    else
      let notification_event : NotificationEvent := ⟨d.type, channel, message⟩
      match notify_listeners_reentrant reaction service service.listeners notification_event with
      | .ok outcome => .ok (⟨received, outcome.1⟩, outcome.2)
      | .error e => .error e

/-- A callback of listener 1 that unregisters listener 3; the other callbacks
leave the service alone. -/
def unregister_three_from_one : Nat → List ListenerCall :=
  fun L => if L = 1 then [.unregister_listener 3] else []

/-! # Theorems -/

/-! ## Dispatch: `on_event` -/

theorem notify_listeners_eq (ls : List EventListenerRegistration) (ev : NotificationEvent) :
    notify_listeners ls ev
      = (ls.filter (fun r => r.matcher ev.type)).map (fun r => (r.listener, ev)) := by
  induction ls with
  | nil => rfl
  | cons r rest ih =>
    by_cases h : r.matcher ev.type = true
    · simp [notify_listeners, h, ih]
    · simp [notify_listeners, h, ih]

theorem on_event_notified (service : PusherEventService) (event : PusherEvent) :
    (on_event service event).notified
      = if (EventTypeDef.get_from_key (event.event_name.getD "")).type = .UNKNOWN then []
        else notify_listeners service.listeners
          ⟨(EventTypeDef.get_from_key (event.event_name.getD "")).type,
            event.channel_name.getD "", event.data.getD ""⟩ := by
  unfold on_event
  by_cases hl : service.listeners.isEmpty = true
  · have : service.listeners = [] := List.isEmpty_iff.mp hl
    simp [this, notify_listeners]
  · by_cases hu : (EventTypeDef.get_from_key (event.event_name.getD "")).type = .UNKNOWN
    · simp [hl, hu]
    · simp [hl, hu]

theorem count_notify_listeners (ls : List EventListenerRegistration) (ev : NotificationEvent)
    (L : Nat) :
    (notify_listeners ls ev).count (L, ev)
      = ls.countP (fun r => r.listener == L && r.matcher ev.type) := by
  induction ls with
  | nil => rfl
  | cons r rest ih =>
    by_cases h : r.matcher ev.type = true
    · by_cases hL : r.listener = L
      · simp [notify_listeners, h, hL, ih, List.countP_cons]
      · simp [notify_listeners, h, hL, ih, List.countP_cons, List.count_cons]
    · simp [notify_listeners, h, ih, List.countP_cons]

theorem countP_listener_of_nodup (p : EventListenerRegistration → Bool) :
    ∀ (ls : List EventListenerRegistration), (ls.map (fun r => r.listener)).Nodup →
      ∀ r ∈ ls, ls.countP (fun q => q.listener == r.listener && p q) = if p r then 1 else 0 := by
  intro ls
  induction ls with
  | nil => intro _ r hr; cases hr
  | cons a t ih =>
    intro hnd r hr
    rw [List.map_cons, List.nodup_cons] at hnd
    obtain ⟨hna, hnt⟩ := hnd
    rcases List.mem_cons.mp hr with rfl | hrt
    · have hz : t.countP (fun q => q.listener == r.listener && p q) = 0 := by
        rw [List.countP_eq_zero]
        intro q hq hcontra
        simp only [Bool.and_eq_true, beq_iff_eq] at hcontra
        exact hna (List.mem_map.mpr ⟨q, hq, hcontra.1⟩)
      rw [List.countP_cons, hz]
      by_cases hp : p r = true <;> simp [hp]
    · have hne : a.listener ≠ r.listener := by
        intro he
        exact hna (List.mem_map.mpr ⟨r, hrt, he.symm⟩)
      rw [List.countP_cons, ih hnt r hrt]
      simp [hne]

/-- C1. When the registry resolves the key of an inbound event to a type `c`
other than `UNKNOWN`, `on_event` hands every callback the event
`(c, channel, payload)` and calls only registered listeners whose matcher
accepts `c`; a listener address is called once for each of its registrations
that accepts `c`; so, registrations being one per listener, a registered
listener is called exactly once when its matcher accepts `c` and not at all
when it rejects `c`. -/
theorem on_event_delivers_to_accepting_listeners (service : PusherEventService)
    (event : PusherEvent) (c : EventType)
    (hkey : (EventTypeDef.get_from_key (event.event_name.getD "")).type = c)
    (hc : c ≠ .UNKNOWN) :
    (∀ d ∈ (on_event service event).notified,
        d.2 = ⟨c, event.channel_name.getD "", event.data.getD ""⟩ ∧
        ∃ r ∈ service.listeners, r.listener = d.1 ∧ r.matcher c = true) ∧
    (∀ L : Nat,
        (on_event service event).notified.count
            (L, ⟨c, event.channel_name.getD "", event.data.getD ""⟩)
          = service.listeners.countP (fun r => r.listener == L && r.matcher c)) ∧
    ((service.listeners.map (fun r => r.listener)).Nodup →
      ∀ r ∈ service.listeners,
        (on_event service event).notified.count
            (r.listener, ⟨c, event.channel_name.getD "", event.data.getD ""⟩)
          = if r.matcher c then 1 else 0) := by
  subst hkey
  have hout := on_event_notified service event
  rw [if_neg hc] at hout
  refine ⟨?_, ?_, ?_⟩
  · intro d hd
    rw [hout, notify_listeners_eq] at hd
    obtain ⟨r, hr, rfl⟩ := List.mem_map.mp hd
    rw [List.mem_filter] at hr
    exact ⟨rfl, r, hr.1, rfl, hr.2⟩
  · intro L
    rw [hout]
    exact count_notify_listeners service.listeners _ L
  · intro hnd r hr
    rw [hout, count_notify_listeners]
    exact countP_listener_of_nodup (fun q => q.matcher _) service.listeners hnd r hr

/-- C1, worked case: the asset-minted event on channel `asset.mainnet.0xABC`
reaches listener 1 (default filter) and listener 3 (allow-list) once each, and
listener 2, whose deny-list holds `ASSET_MINTED`, not at all. -/
theorem on_event_delivers_to_accepting_listeners_witness :
    (EventTypeDef.get_from_key (asset_minted_event.event_name.getD "")).type = .ASSET_MINTED ∧
    EventType.ASSET_MINTED ≠ .UNKNOWN ∧
    (on_event service_three_listeners asset_minted_event).notified.count
        (1, asset_minted_notification) = 1 ∧
    (on_event service_three_listeners asset_minted_event).notified.count
        (2, asset_minted_notification) = 0 ∧
    (on_event service_three_listeners asset_minted_event).notified.count
        (3, asset_minted_notification) = 1 :=
  have h := on_event_delivers_to_accepting_listeners service_three_listeners
    asset_minted_event .ASSET_MINTED (by decide) (by decide)
  ⟨by decide, by decide,
    h.2.2 (by decide) registration_default (List.Mem.head _),
    h.2.2 (by decide) registration_deny (List.Mem.tail _ (List.Mem.head _)),
    h.2.2 (by decide) registration_allow (List.Mem.tail _ (List.Mem.tail _ (List.Mem.head _)))⟩

/-- C2. When the key of an inbound event matches the wire key of no definition
of the registry, `on_event` calls no listener, whatever the registrations and
their matchers. The dispatch has no failing outcome: `on_event` reads each
optional of the event only behind its `has_value` test. -/
theorem on_event_unregistered_key_notifies_nobody (service : PusherEventService)
    (event : PusherEvent)
    (hkey : ∀ d ∈ EventTypeDef.values, d.key ≠ event.event_name.getD "") :
    (on_event service event).notified = [] := by
  have hnone : EventTypeDef.values.find? (fun d => d.key == event.event_name.getD "") = none := by
    rw [List.find?_eq_none]
    intro d hd
    simpa using hkey d hd
  have hu : (EventTypeDef.get_from_key (event.event_name.getD "")).type = .UNKNOWN := by
    unfold EventTypeDef.get_from_key
    rw [hnone]
    rfl
  rw [on_event_notified, if_pos hu]

/-- C2, worked case: the key `Platform\Events\AssetMinted` is not in the
registry, and an event carrying it reaches none of the three listeners. -/
theorem on_event_unregistered_key_notifies_nobody_witness :
    (∀ d ∈ EventTypeDef.values, d.key ≠ "Platform\\Events\\AssetMinted") ∧
    (on_event service_three_listeners
      ⟨some "Platform\\Events\\AssetMinted", some "asset.mainnet.0xABC", some "\x7b...\x7d"⟩).notified
      = [] :=
  ⟨by decide,
    on_event_unregistered_key_notifies_nobody service_three_listeners
      ⟨some "Platform\\Events\\AssetMinted", some "asset.mainnet.0xABC", some "\x7b...\x7d"⟩
      (by decide)⟩

/-! ## Registration -/

theorem is_registered_eq_true_iff (service : PusherEventService) (L : Nat) :
    service.is_registered L = true ↔ ∃ r ∈ service.listeners, r.listener = L := by
  unfold is_registered
  rw [List.find?_isSome]
  simp

theorem is_registered_eq_false_iff (service : PusherEventService) (L : Nat) :
    service.is_registered L = false ↔ ∀ r ∈ service.listeners, r.listener ≠ L := by
  rw [← Bool.not_eq_true, is_registered_eq_true_iff]
  simp

theorem cache_registration_registered (service : PusherEventService)
    (cfg : RegistrationListenerConfiguration) (r : EventListenerRegistration)
    (h : service.listeners.find? (fun q => q.listener == cfg.listener) = some r) :
    service.cache_registration cfg = (r, service) := by
  unfold cache_registration
  rw [h]

theorem cache_registration_unregistered (service : PusherEventService)
    (cfg : RegistrationListenerConfiguration)
    (h : service.is_registered cfg.listener = false) :
    service.cache_registration cfg
      = (cfg.create, { service with listeners := service.listeners ++ [cfg.create] }) := by
  have hnone : service.listeners.find? (fun q => q.listener == cfg.listener) = none := by
    rw [List.find?_eq_none]
    intro q hq
    simpa using (is_registered_eq_false_iff service cfg.listener).mp h q hq
  unfold cache_registration
  rw [hnone]

theorem find_after_append (ls : List EventListenerRegistration) (r : EventListenerRegistration)
    (h : ∀ q ∈ ls, q.listener ≠ r.listener) :
    (ls ++ [r]).find? (fun q => q.listener == r.listener) = some r := by
  induction ls with
  | nil => simp
  | cons a t ih =>
    have ha : a.listener ≠ r.listener := h a (List.mem_cons_self a t)
    have ht : ∀ q ∈ t, q.listener ≠ r.listener := fun q hq => h q (List.mem_cons_of_mem a hq)
    simp [List.find?_cons, ha, ih ht]

theorem cache_registration_nodup (service : PusherEventService)
    (cfg : RegistrationListenerConfiguration)
    (h : (service.listeners.map (fun r => r.listener)).Nodup) :
    ((service.cache_registration cfg).2.listeners.map (fun r => r.listener)).Nodup := by
  cases hreg : service.is_registered cfg.listener with
  | true =>
    obtain ⟨r, hr⟩ := Option.isSome_iff_exists.mp hreg
    rw [cache_registration_registered service cfg r hr]
    exact h
  | false =>
    rw [cache_registration_unregistered service cfg hreg]
    have hne := (is_registered_eq_false_iff service cfg.listener).mp hreg
    simp only [List.map_append, List.map_cons, List.map_nil]
    rw [List.nodup_append]
    refine ⟨h, List.nodup_singleton _, ?_⟩
    intro a ha hb
    rw [List.mem_singleton] at hb
    obtain ⟨q, hq, rfl⟩ := List.mem_map.mp ha
    exact hne q hq hb

theorem unregister_listener_nodup (service : PusherEventService) (L : Nat)
    (h : (service.listeners.map (fun r => r.listener)).Nodup) :
    ((service.unregister_listener L).listeners.map (fun r => r.listener)).Nodup :=
  List.Nodup.sublist (List.Sublist.map _ (List.eraseP_sublist _)) h

theorem call_nodup (service : PusherEventService) (c : ListenerCall)
    (h : (service.listeners.map (fun r => r.listener)).Nodup) :
    ((service.call c).listeners.map (fun r => r.listener)).Nodup := by
  cases c with
  | register_listener l => exact cache_registration_nodup service _ h
  | register_listener_with_matcher l m => exact cache_registration_nodup service _ h
  | register_listener_including_types l ts => exact cache_registration_nodup service _ h
  | register_listener_excluding_types l ts => exact cache_registration_nodup service _ h
  | unregister_listener l => exact unregister_listener_nodup service l h

theorem calls_nodup (cs : List ListenerCall) :
    ∀ service : PusherEventService, (service.listeners.map (fun r => r.listener)).Nodup →
      (((service.calls cs).listeners).map (fun r => r.listener)).Nodup := by
  induction cs with
  | nil => intro service h; exact h
  | cons c rest ih =>
    intro service h
    exact ih (service.call c) (call_nodup service c h)

theorem eraseP_listener_of_nodup (L : Nat) :
    ∀ ls : List EventListenerRegistration, (ls.map (fun r => r.listener)).Nodup →
      ∀ q ∈ ls.eraseP (fun r => r.listener == L), q.listener ≠ L := by
  intro ls
  induction ls with
  | nil => intro _ q hq; cases hq
  | cons a t ih =>
    intro hnd q hq
    rw [List.map_cons, List.nodup_cons] at hnd
    by_cases ha : a.listener = L
    · have : (a :: t).eraseP (fun r => r.listener == L) = t := by
        simp [List.eraseP_cons, ha]
      rw [this] at hq
      intro hqL
      exact hnd.1 (List.mem_map.mpr ⟨q, hq, by rw [hqL, ha]⟩)
    · have : (a :: t).eraseP (fun r => r.listener == L)
          = a :: t.eraseP (fun r => r.listener == L) := by
        simp [List.eraseP_cons, ha]
      rw [this] at hq
      rcases List.mem_cons.mp hq with rfl | hqt
      · exact ha
      · exact ih hnd.2 q hqt

theorem mem_on_event_notified (service : PusherEventService) (event : PusherEvent)
    (d : Nat × NotificationEvent) (hd : d ∈ (on_event service event).notified) :
    ∃ r ∈ service.listeners, r.listener = d.1 ∧
      r.matcher (EventTypeDef.get_from_key (event.event_name.getD "")).type = true := by
  rw [on_event_notified] at hd
  split at hd
  · cases hd
  · rw [notify_listeners_eq] at hd
    obtain ⟨r, hr, rfl⟩ := List.mem_map.mp hd
    rw [List.mem_filter] at hr
    exact ⟨r, hr.1, rfl, hr.2⟩

/-- C3. Registering a listener `L` that is already registered, through any of
the four register members and with any filter, hands back a registration of `L`
already in the collection and leaves the whole service, so the collection with
its length, order and matchers, as it was. When `L` is not yet registered, the
first call creates the registration from its own configuration and appends it,
a second call for `L` with any configuration hands back that same registration
and changes nothing, and afterwards an event whose type the first matcher
rejects is not delivered to `L`, whatever the second matcher says. -/
theorem register_again_keeps_first_registration (service : PusherEventService) (L : Nat) :
    (service.is_registered L = true →
      ∃ r ∈ service.listeners, r.listener = L ∧
        service.register_listener L = (r, service) ∧
        (∀ m, service.register_listener_with_matcher L m = (r, service)) ∧
        (∀ ts, service.register_listener_including_types L ts = (r, service)) ∧
        (∀ ts, service.register_listener_excluding_types L ts = (r, service))) ∧
    (service.is_registered L = false →
      ∀ first second : RegistrationListenerConfiguration,
        first.listener = L → second.listener = L →
        service.cache_registration first
          = (first.create, { service with listeners := service.listeners ++ [first.create] }) ∧
        (service.cache_registration first).2.cache_registration second
          = (first.create, (service.cache_registration first).2) ∧
        ∀ (event : PusherEvent) (c : EventType),
          (EventTypeDef.get_from_key (event.event_name.getD "")).type = c →
          first.matcher c = false →
          ∀ d ∈ (on_event ((service.cache_registration first).2.cache_registration second).2
                  event).notified, d.1 ≠ L) := by
  constructor
  · intro hreg
    obtain ⟨r, hr⟩ := Option.isSome_iff_exists.mp hreg
    have hL : r.listener = L := by simpa using List.find?_some hr
    have hall : ∀ cfg : RegistrationListenerConfiguration, cfg.listener = L →
        service.cache_registration cfg = (r, service) := by
      intro cfg hcfg
      apply cache_registration_registered
      rw [hcfg]
      exact hr
    exact ⟨r, List.mem_of_find?_eq_some hr, hL, hall _ rfl, fun m => hall _ rfl,
      fun ts => hall _ rfl, fun ts => hall _ rfl⟩
  · intro hreg first second h1 h2
    subst h1
    have hne := (is_registered_eq_false_iff service first.listener).mp hreg
    have hfirst := cache_registration_unregistered service first hreg
    have hsecond : (service.cache_registration first).2.cache_registration second
        = (first.create, (service.cache_registration first).2) := by
      apply cache_registration_registered
      rw [hfirst, h2]
      exact find_after_append service.listeners first.create hne
    refine ⟨hfirst, hsecond, ?_⟩
    intro event c hc hrej d hd hdL
    rw [hsecond, hfirst] at hd
    obtain ⟨r, hr, hrd, hacc⟩ := mem_on_event_notified _ event d hd
    rw [hc] at hacc
    rcases List.mem_append.mp hr with hold | hnew
    · exact hne r hold (hrd.trans hdL)
    · rw [List.mem_singleton] at hnew
      subst hnew
      have : first.matcher c = true := hacc
      rw [hrej] at this
      cases this

/-- C3, worked case: listener 2 is registered with a deny-list, and a further
registration with an accept-all matcher changes nothing; on a new service,
listener 1 registered first with an allow-list of `ASSET_MINTED` and then with
the default filter is not told of a player-created event. -/
theorem register_again_keeps_first_registration_witness :
    service_three_listeners.is_registered 2 = true ∧
    (∃ r ∈ service_three_listeners.listeners, r.listener = 2 ∧
        service_three_listeners.register_listener 2 = (r, service_three_listeners) ∧
        (∀ m, service_three_listeners.register_listener_with_matcher 2 m
          = (r, service_three_listeners)) ∧
        (∀ ts, service_three_listeners.register_listener_including_types 2 ts
          = (r, service_three_listeners)) ∧
        (∀ ts, service_three_listeners.register_listener_excluding_types 2 ts
          = (r, service_three_listeners))) ∧
    (PusherEventService.new true).is_registered 1 = false ∧
    (∀ d ∈ (on_event
        (((PusherEventService.new true).register_listener_including_types 1
            [.ASSET_MINTED]).2.register_listener 1).2 player_created_event).notified,
        d.1 ≠ 1) :=
  ⟨by decide,
    (register_again_keeps_first_registration service_three_listeners 2).1 (by decide),
    by decide,
    ((register_again_keeps_first_registration (PusherEventService.new true) 1).2 (by decide)
      ((RegistrationListenerConfiguration.new 1).with_allowed_events [.ASSET_MINTED])
      (RegistrationListenerConfiguration.new 1) rfl rfl).2.2
      player_created_event .PLAYER_CREATED (by decide) (by decide)⟩

/-- C4. From a service with an empty listener collection, every sequence of
calls of the four register members and `unregister_listener` leads to a
collection in which no listener address occurs twice: each listener has at most
one registration. -/
theorem at_most_one_registration_per_listener (service : PusherEventService)
    (hempty : service.listeners = []) (cs : List ListenerCall) :
    ((service.calls cs).listeners.map (fun r => r.listener)).Nodup ∧
    ∀ L : Nat, (service.calls cs).listeners.countP (fun r => r.listener == L) ≤ 1 := by
  have hnd : ((service.calls cs).listeners.map (fun r => r.listener)).Nodup := by
    apply calls_nodup
    rw [hempty]
    exact List.nodup_nil
  refine ⟨hnd, ?_⟩
  intro L
  have hle := List.nodup_iff_count_le_one.mp hnd L
  rw [List.count_eq_countP, List.countP_map] at hle
  exact hle

/-- C4, worked case: five calls on a new service, two of them for listener 1. -/
theorem at_most_one_registration_per_listener_witness :
    (PusherEventService.new true).listeners = [] ∧
    (((PusherEventService.new true).calls five_calls).listeners.map
      (fun r => r.listener)).Nodup :=
  ⟨rfl, (at_most_one_registration_per_listener (PusherEventService.new true) rfl five_calls).1⟩

/-- C5. In every service reached from an empty listener collection by the four
register members and `unregister_listener`, a listener is not registered after
`unregister_listener` has been called for it, and `unregister_listener` for a
listener that is not registered leaves the service as it was. -/
theorem unregister_listener_unregisters (service : PusherEventService)
    (hempty : service.listeners = []) (cs : List ListenerCall) (L : Nat) :
    ((service.calls cs).unregister_listener L).is_registered L = false ∧
    ((service.calls cs).is_registered L = false →
      (service.calls cs).unregister_listener L = service.calls cs) := by
  have hnd : ((service.calls cs).listeners.map (fun r => r.listener)).Nodup := by
    apply calls_nodup
    rw [hempty]
    exact List.nodup_nil
  constructor
  · rw [is_registered_eq_false_iff]
    exact eraseP_listener_of_nodup L _ hnd
  · intro hreg
    have hne := (is_registered_eq_false_iff _ L).mp hreg
    have herase : (service.calls cs).listeners.eraseP (fun r => r.listener == L)
        = (service.calls cs).listeners := by
      apply List.eraseP_of_forall_not
      intro q hq
      simpa using hne q hq
    unfold unregister_listener
    rw [herase]

/-- C5, worked case: after the five calls listener 1 is registered and
listener 7 is not; unregistering 1 removes it, unregistering 7 changes
nothing. -/
theorem unregister_listener_unregisters_witness :
    (PusherEventService.new true).listeners = [] ∧
    ((PusherEventService.new true).calls five_calls).is_registered 1 = true ∧
    ((((PusherEventService.new true).calls five_calls).unregister_listener 1).is_registered 1
      = false) ∧
    ((PusherEventService.new true).calls five_calls).is_registered 7 = false ∧
    (((PusherEventService.new true).calls five_calls).unregister_listener 7
      = (PusherEventService.new true).calls five_calls) :=
  ⟨rfl, by decide,
    (unregister_listener_unregisters (PusherEventService.new true) rfl five_calls 1).1,
    by decide,
    (unregister_listener_unregisters (PusherEventService.new true) rfl five_calls 7).2
      (by decide)⟩

/-! ## Subscription -/

theorem foldl_bind (l : Bool) (defs : List EventTypeDef) :
    ∀ c : PusherClient,
      (defs.foldl (fun c d => c.bind d.key l) c).channels = c.channels ∧
      (defs.foldl (fun c d => c.bind d.key l) c).state = c.state ∧
      (defs.foldl (fun c d => c.bind d.key l) c).requests
        = c.requests ++ defs.map (fun d => Request.bind d.key l) := by
  induction defs with
  | nil => intro c; simp
  | cons d rest ih =>
    intro c
    obtain ⟨h1, h2, h3⟩ := ih (c.bind d.key l)
    simp only [List.foldl_cons, List.map_cons]
    refine ⟨h1, h2, ?_⟩
    rw [h3]
    simp [PusherClient.bind]

theorem subscribe_of_client (service : PusherEventService) (pusher_client : PusherClient)
    (channel : String) (hclient : service.impl.get_client = some pusher_client) :
    service.subscribe channel
      = .ok (if pusher_client.is_subscribed_or_pending channel then service
             else { service with
                    impl := ⟨some ((EventTypeDef.filter_by_channel_type [channel]).foldl
                      (fun c d => c.bind d.key service.listener)
                      (pusher_client.subscribe channel))⟩ }) := by
  unfold subscribe
  rw [hclient]
  by_cases h : pusher_client.is_subscribed_or_pending channel = true
  · simp [h]
  · simp [h, bind, PusherEventServiceImpl.get_client]

theorem count_subscribe_binds (l : Bool) (channel : String) (defs : List EventTypeDef) :
    (defs.map (fun d => Request.bind d.key l)).count (Request.subscribe channel) = 0 := by
  rw [List.count_eq_zero]
  intro h
  obtain ⟨d, _, hd⟩ := List.mem_map.mp h
  cases hd

theorem subscribe_once (service : PusherEventService) (pusher_client : PusherClient)
    (channel : String) (hclient : service.impl.get_client = some pusher_client) :
    ∃ (s1 : PusherEventService) (c1 : PusherClient),
      service.subscribe channel = .ok s1 ∧ s1.impl.get_client = some c1 ∧
      s1.platform = service.platform ∧
      c1.is_subscribed_or_pending channel = true ∧
      c1.requests.count (.subscribe channel)
        = pusher_client.requests.count (.subscribe channel)
          + if pusher_client.channels channel = .Unsubscribed then 1 else 0 := by
  by_cases h : pusher_client.is_subscribed_or_pending channel = true
  · refine ⟨service, pusher_client, ?_, hclient, rfl, h, ?_⟩
    · rw [subscribe_of_client service pusher_client channel hclient, if_pos h]
    · have hne : pusher_client.channels channel ≠ .Unsubscribed := by
        intro hu
        simp [PusherClient.is_subscribed_or_pending, hu] at h
      rw [if_neg hne]
      rfl
  · obtain ⟨h1, _, h3⟩ := foldl_bind service.listener
      (EventTypeDef.filter_by_channel_type [channel]) (pusher_client.subscribe channel)
    have hs := subscribe_of_client service pusher_client channel hclient
    rw [if_neg h] at hs
    refine ⟨_, _, hs, rfl, rfl, ?_, ?_⟩
    · unfold PusherClient.is_subscribed_or_pending
      rw [h1]
      simp [PusherClient.subscribe]
    · have hu : pusher_client.channels channel = .Unsubscribed := by
        cases hc : pusher_client.channels channel with
        | Unsubscribed => rfl
        | Pending => simp [PusherClient.is_subscribed_or_pending, hc] at h
        | Subscribed => simp [PusherClient.is_subscribed_or_pending, hc] at h
      rw [h3, if_pos hu, List.count_append, count_subscribe_binds]
      simp [PusherClient.subscribe, List.count_append]

theorem subscribe_then_subscribe (service : PusherEventService) (pusher_client : PusherClient)
    (channel : String) (hclient : service.impl.get_client = some pusher_client) :
    ∃ s1, service.subscribe channel = .ok s1 ∧ s1.subscribe channel = .ok s1 ∧
      s1.platform = service.platform ∧
      (s1.subscription_state channel = .Pending ∨
        s1.subscription_state channel = .Subscribed) ∧
      s1.requests.count (.subscribe channel)
        = service.requests.count (.subscribe channel)
          + if service.subscription_state channel = .Unsubscribed then 1 else 0 := by
  obtain ⟨s1, c1, hs1, hc1, hp, hsub, hcount⟩ := subscribe_once service pusher_client channel hclient
  refine ⟨s1, hs1, ?_, hp, ?_, ?_⟩
  · rw [subscribe_of_client s1 c1 channel hc1, if_pos hsub]
  · unfold subscription_state
    rw [hc1]
    simp only [PusherClient.is_subscribed_or_pending, Bool.or_eq_true, beq_iff_eq] at hsub
    exact hsub.symm
  · unfold requests subscription_state
    rw [hc1, hclient]
    exact hcount

/-- With a platform, `subscribe_to_project` is `subscribe` on the topic of the
project channel when the channel can be constructed, and fails with the failure
of the construction otherwise. -/
theorem subscribe_to_project_eq (names : ChannelNames) (service : PusherEventService)
    (platform : Platform) (project : Int) (hplatform : service.platform = some platform) :
    service.subscribe_to_project names project
      = match names.ProjectChannel platform project with
        | .ok channel => service.subscribe channel
        | .error e => .error e := by
  simp only [subscribe_to_project, platform_value, hplatform]
  show (names.ProjectChannel platform project >>= fun channel => service.subscribe channel) = _
  cases names.ProjectChannel platform project <;> rfl

/-- With a platform, `subscribe_to_player` is `subscribe` on the topic of the
player channel when the channel can be constructed, and fails with the failure
of the construction otherwise. -/
theorem subscribe_to_player_eq (names : ChannelNames) (service : PusherEventService)
    (platform : Platform) (project : Int) (player : String)
    (hplatform : service.platform = some platform) :
    service.subscribe_to_player names project player
      = match names.PlayerChannel platform project player with
        | .ok channel => service.subscribe channel
        | .error e => .error e := by
  simp only [subscribe_to_player, platform_value, hplatform]
  show (names.PlayerChannel platform project player >>= fun channel => service.subscribe channel) = _
  cases names.PlayerChannel platform project player <;> rfl

/-- With a platform, `subscribe_to_asset` is `subscribe` on the topic of the
asset channel when the channel can be constructed, and fails with the failure
of the construction otherwise. -/
theorem subscribe_to_asset_eq (names : ChannelNames) (service : PusherEventService)
    (platform : Platform) (asset : String) (hplatform : service.platform = some platform) :
    service.subscribe_to_asset names asset
      = match names.AssetChannel platform asset with
        | .ok channel => service.subscribe channel
        | .error e => .error e := by
  simp only [subscribe_to_asset, platform_value, hplatform]
  show (names.AssetChannel platform asset >>= fun channel => service.subscribe channel) = _
  cases names.AssetChannel platform asset <;> rfl

/-- With a platform, `subscribe_to_wallet` is `subscribe` on the topic of the
wallet channel when the channel can be constructed, and fails with the failure
of the construction otherwise. -/
theorem subscribe_to_wallet_eq (names : ChannelNames) (service : PusherEventService)
    (platform : Platform) (wallet : String) (hplatform : service.platform = some platform) :
    service.subscribe_to_wallet names wallet
      = match names.WalletChannel platform wallet with
        | .ok channel => service.subscribe channel
        | .error e => .error e := by
  simp only [subscribe_to_wallet, platform_value, hplatform]
  show (names.WalletChannel platform wallet >>= fun channel => service.subscribe channel) = _
  cases names.WalletChannel platform wallet <;> rfl

/-- C6. On a service that has a client, `subscribe(channel)` succeeds and a
second `subscribe(channel)` right after it leaves the service as the first call
left it: it sends nothing and binds nothing, the channel being `Pending` or
`Subscribed` by then. Over both calls the number of subscribe messages for the
channel grows by one when the channel was `Unsubscribed` before, and not at all
otherwise. The same holds through each of the four adapters,
`subscribe_to_project`, `subscribe_to_player`, `subscribe_to_asset` and
`subscribe_to_wallet`, called twice with the same arguments, whenever the
channel of the arguments can be constructed; when it cannot, the adapter fails
with the failure of the construction and leaves no changed service. -/
theorem subscribe_twice_sends_once (names : ChannelNames) (service : PusherEventService)
    (pusher_client : PusherClient) (hclient : service.impl.get_client = some pusher_client) :
    (∀ channel : String,
      ∃ s1, service.subscribe channel = .ok s1 ∧ s1.subscribe channel = .ok s1 ∧
        (s1.subscription_state channel = .Pending ∨
          s1.subscription_state channel = .Subscribed) ∧
        s1.requests.count (.subscribe channel)
          = service.requests.count (.subscribe channel)
            + if service.subscription_state channel = .Unsubscribed then 1 else 0) ∧
    (∀ platform : Platform, service.platform = some platform →
      (∀ (project : Int) (channel : String),
        names.ProjectChannel platform project = .ok channel →
        ∃ s1, service.subscribe_to_project names project = .ok s1 ∧
          s1.subscribe_to_project names project = .ok s1 ∧
          (s1.subscription_state channel = .Pending ∨
            s1.subscription_state channel = .Subscribed) ∧
          s1.requests.count (.subscribe channel)
            = service.requests.count (.subscribe channel)
              + if service.subscription_state channel = .Unsubscribed then 1 else 0) ∧
      (∀ (project : Int) (player channel : String),
        names.PlayerChannel platform project player = .ok channel →
        ∃ s1, service.subscribe_to_player names project player = .ok s1 ∧
          s1.subscribe_to_player names project player = .ok s1 ∧
          (s1.subscription_state channel = .Pending ∨
            s1.subscription_state channel = .Subscribed) ∧
          s1.requests.count (.subscribe channel)
            = service.requests.count (.subscribe channel)
              + if service.subscription_state channel = .Unsubscribed then 1 else 0) ∧
      (∀ asset channel : String,
        names.AssetChannel platform asset = .ok channel →
        ∃ s1, service.subscribe_to_asset names asset = .ok s1 ∧
          s1.subscribe_to_asset names asset = .ok s1 ∧
          (s1.subscription_state channel = .Pending ∨
            s1.subscription_state channel = .Subscribed) ∧
          s1.requests.count (.subscribe channel)
            = service.requests.count (.subscribe channel)
              + if service.subscription_state channel = .Unsubscribed then 1 else 0) ∧
      (∀ wallet channel : String,
        names.WalletChannel platform wallet = .ok channel →
        ∃ s1, service.subscribe_to_wallet names wallet = .ok s1 ∧
          s1.subscribe_to_wallet names wallet = .ok s1 ∧
          (s1.subscription_state channel = .Pending ∨
            s1.subscription_state channel = .Subscribed) ∧
          s1.requests.count (.subscribe channel)
            = service.requests.count (.subscribe channel)
              + if service.subscription_state channel = .Unsubscribed then 1 else 0) ∧
      (∀ (project : Int) (e : Failure), names.ProjectChannel platform project = .error e →
        service.subscribe_to_project names project = .error e) ∧
      (∀ (project : Int) (player : String) (e : Failure),
        names.PlayerChannel platform project player = .error e →
        service.subscribe_to_player names project player = .error e) ∧
      (∀ (asset : String) (e : Failure), names.AssetChannel platform asset = .error e →
        service.subscribe_to_asset names asset = .error e) ∧
      (∀ (wallet : String) (e : Failure), names.WalletChannel platform wallet = .error e →
        service.subscribe_to_wallet names wallet = .error e)) := by
  constructor
  · intro channel
    obtain ⟨s1, h1, h2, _, h3, h4⟩ := subscribe_then_subscribe service pusher_client channel hclient
    exact ⟨s1, h1, h2, h3, h4⟩
  · intro platform hplatform
    refine ⟨?_, ?_, ?_, ?_, ?_, ?_, ?_, ?_⟩
    · intro project channel hname
      obtain ⟨s1, h1, h2, hp, h3, h4⟩ :=
        subscribe_then_subscribe service pusher_client channel hclient
      refine ⟨s1, ?_, ?_, h3, h4⟩
      · rw [subscribe_to_project_eq names service platform project hplatform, hname]
        exact h1
      · rw [subscribe_to_project_eq names s1 platform project (hp.trans hplatform), hname]
        exact h2
    · intro project player channel hname
      obtain ⟨s1, h1, h2, hp, h3, h4⟩ :=
        subscribe_then_subscribe service pusher_client channel hclient
      refine ⟨s1, ?_, ?_, h3, h4⟩
      · rw [subscribe_to_player_eq names service platform project player hplatform, hname]
        exact h1
      · rw [subscribe_to_player_eq names s1 platform project player (hp.trans hplatform),
          hname]
        exact h2
    · intro asset channel hname
      obtain ⟨s1, h1, h2, hp, h3, h4⟩ :=
        subscribe_then_subscribe service pusher_client channel hclient
      refine ⟨s1, ?_, ?_, h3, h4⟩
      · rw [subscribe_to_asset_eq names service platform asset hplatform, hname]
        exact h1
      · rw [subscribe_to_asset_eq names s1 platform asset (hp.trans hplatform), hname]
        exact h2
    · intro wallet channel hname
      obtain ⟨s1, h1, h2, hp, h3, h4⟩ :=
        subscribe_then_subscribe service pusher_client channel hclient
      refine ⟨s1, ?_, ?_, h3, h4⟩
      · rw [subscribe_to_wallet_eq names service platform wallet hplatform, hname]
        exact h1
      · rw [subscribe_to_wallet_eq names s1 platform wallet (hp.trans hplatform), hname]
        exact h2
    · intro project e hname
      rw [subscribe_to_project_eq names service platform project hplatform, hname]
    · intro project player e hname
      rw [subscribe_to_player_eq names service platform project player hplatform, hname]
    · intro asset e hname
      rw [subscribe_to_asset_eq names service platform asset hplatform, hname]
    · intro wallet e hname
      rw [subscribe_to_wallet_eq names service platform wallet hplatform, hname]

/-- C6, worked case: on the started service, two calls of `subscribe` for
`project.mainnet.5` send one subscribe message between them, and so do two
calls of each adapter: project 5, player 7 of project 5, asset `0xABC` and
wallet `0xDEF`; `subscribe_to_project` for the project id 0 fails, the channel
being rejected. -/
theorem subscribe_twice_sends_once_witness :
    started_service.impl.get_client = some started_client ∧
    started_service.platform = some complete_platform ∧
    (∃ s1, started_service.subscribe "project.mainnet.5" = .ok s1 ∧
        s1.subscribe "project.mainnet.5" = .ok s1 ∧
        (s1.subscription_state "project.mainnet.5" = .Pending ∨
          s1.subscription_state "project.mainnet.5" = .Subscribed) ∧
        s1.requests.count (.subscribe "project.mainnet.5")
          = started_service.requests.count (.subscribe "project.mainnet.5")
            + if started_service.subscription_state "project.mainnet.5" = .Unsubscribed
              then 1 else 0) ∧
    example_names.ProjectChannel complete_platform 5 = .ok "project.mainnet.5" ∧
    (∃ s1, started_service.subscribe_to_project example_names 5 = .ok s1 ∧
        s1.subscribe_to_project example_names 5 = .ok s1 ∧
        (s1.subscription_state "project.mainnet.5" = .Pending ∨
          s1.subscription_state "project.mainnet.5" = .Subscribed) ∧
        s1.requests.count (.subscribe "project.mainnet.5")
          = started_service.requests.count (.subscribe "project.mainnet.5")
            + if started_service.subscription_state "project.mainnet.5" = .Unsubscribed
              then 1 else 0) ∧
    example_names.PlayerChannel complete_platform 5 "7" = .ok "player.mainnet.5.7" ∧
    (∃ s1, started_service.subscribe_to_player example_names 5 "7" = .ok s1 ∧
        s1.subscribe_to_player example_names 5 "7" = .ok s1 ∧
        (s1.subscription_state "player.mainnet.5.7" = .Pending ∨
          s1.subscription_state "player.mainnet.5.7" = .Subscribed) ∧
        s1.requests.count (.subscribe "player.mainnet.5.7")
          = started_service.requests.count (.subscribe "player.mainnet.5.7")
            + if started_service.subscription_state "player.mainnet.5.7" = .Unsubscribed
              then 1 else 0) ∧
    example_names.AssetChannel complete_platform "0xABC" = .ok "asset.mainnet.0xABC" ∧
    (∃ s1, started_service.subscribe_to_asset example_names "0xABC" = .ok s1 ∧
        s1.subscribe_to_asset example_names "0xABC" = .ok s1 ∧
        (s1.subscription_state "asset.mainnet.0xABC" = .Pending ∨
          s1.subscription_state "asset.mainnet.0xABC" = .Subscribed) ∧
        s1.requests.count (.subscribe "asset.mainnet.0xABC")
          = started_service.requests.count (.subscribe "asset.mainnet.0xABC")
            + if started_service.subscription_state "asset.mainnet.0xABC" = .Unsubscribed
              then 1 else 0) ∧
    example_names.WalletChannel complete_platform "0xDEF" = .ok "wallet.mainnet.0xDEF" ∧
    (∃ s1, started_service.subscribe_to_wallet example_names "0xDEF" = .ok s1 ∧
        s1.subscribe_to_wallet example_names "0xDEF" = .ok s1 ∧
        (s1.subscription_state "wallet.mainnet.0xDEF" = .Pending ∨
          s1.subscription_state "wallet.mainnet.0xDEF" = .Subscribed) ∧
        s1.requests.count (.subscribe "wallet.mainnet.0xDEF")
          = started_service.requests.count (.subscribe "wallet.mainnet.0xDEF")
            + if started_service.subscription_state "wallet.mainnet.0xDEF" = .Unsubscribed
              then 1 else 0) ∧
    example_names.ProjectChannel complete_platform 0 = .error .invalid_channel_identifier ∧
    started_service.subscribe_to_project example_names 0
      = .error .invalid_channel_identifier ∧
    started_service.requests.count (.subscribe "project.mainnet.5") = 0 ∧
    started_service.subscription_state "project.mainnet.5" = .Unsubscribed :=
  ⟨rfl, rfl,
    (subscribe_twice_sends_once example_names started_service started_client rfl).1
      "project.mainnet.5",
    rfl,
    ((subscribe_twice_sends_once example_names started_service started_client rfl).2
      complete_platform rfl).1 5 "project.mainnet.5" rfl,
    rfl,
    ((subscribe_twice_sends_once example_names started_service started_client rfl).2
      complete_platform rfl).2.1 5 "7" "player.mainnet.5.7" rfl,
    rfl,
    ((subscribe_twice_sends_once example_names started_service started_client rfl).2
      complete_platform rfl).2.2.1 "0xABC" "asset.mainnet.0xABC" rfl,
    rfl,
    ((subscribe_twice_sends_once example_names started_service started_client rfl).2
      complete_platform rfl).2.2.2.1 "0xDEF" "wallet.mainnet.0xDEF" rfl,
    rfl,
    ((subscribe_twice_sends_once example_names started_service started_client rfl).2
      complete_platform rfl).2.2.2.2.1 0 .invalid_channel_identifier rfl,
    by decide, by decide⟩

/-- C7. `unsubscribe(channel)` leaves the whole service as it was, so sends
nothing and changes no subscription state, whenever the channel is not
`Subscribed`: never subscribed, unsubscribed again, still `Pending`, or no
client at all. When the client holds the channel as `Subscribed`, the call
sends exactly the unsubscribe message for the channel and marks the channel
`Unsubscribed`. -/
theorem unsubscribe_only_from_subscribed (service : PusherEventService) (channel : String) :
    (service.subscription_state channel ≠ .Subscribed →
      service.unsubscribe channel = service) ∧
    (∀ pusher_client : PusherClient, service.impl.get_client = some pusher_client →
      pusher_client.channels channel = .Subscribed →
      (service.unsubscribe channel).requests = service.requests ++ [.unsubscribe channel] ∧
      (service.unsubscribe channel).subscription_state channel = .Unsubscribed) := by
  constructor
  · intro hstate
    unfold unsubscribe
    cases hclient : service.impl.get_client with
    | none => rfl
    | some c =>
      have hns : c.is_subscribed channel = false := by
        unfold subscription_state at hstate
        rw [hclient] at hstate
        simpa [PusherClient.is_subscribed] using hstate
      simp [hns]
  · intro c hclient hsub
    have hs : c.is_subscribed channel = true := by
      simp [PusherClient.is_subscribed, hsub]
    have hun : service.unsubscribe channel
        = { service with impl := ⟨some (c.unsubscribe channel)⟩ } := by
      unfold unsubscribe
      rw [hclient]
      simp [hs]
    rw [hun]
    constructor
    · simp [requests, PusherEventServiceImpl.get_client, PusherClient.unsubscribe] at hclient ⊢
      rw [hclient]
    · simp [subscription_state, PusherEventServiceImpl.get_client, PusherClient.unsubscribe]

/-- C7, worked case: on the started service the channel `asset.mainnet.0xABC`
was never subscribed and `unsubscribe` changes nothing; once the channel has
been subscribed and acknowledged, `unsubscribe` sends the unsubscribe
message. -/
theorem unsubscribe_only_from_subscribed_witness :
    started_service.subscription_state "asset.mainnet.0xABC" ≠ .Subscribed ∧
    started_service.unsubscribe "asset.mainnet.0xABC" = started_service ∧
    subscribed_service.impl.get_client = some subscribed_client ∧
    subscribed_client.channels "asset.mainnet.0xABC" = .Subscribed ∧
    (subscribed_service.unsubscribe "asset.mainnet.0xABC").requests
      = subscribed_service.requests ++ [.unsubscribe "asset.mainnet.0xABC"] ∧
    (subscribed_service.unsubscribe "asset.mainnet.0xABC").subscription_state
      "asset.mainnet.0xABC" = .Unsubscribed :=
  ⟨by decide,
    (unsubscribe_only_from_subscribed started_service "asset.mainnet.0xABC").1 (by decide),
    rfl, by decide,
    ((unsubscribe_only_from_subscribed subscribed_service "asset.mainnet.0xABC").2
      subscribed_client rfl (by decide)).1,
    ((unsubscribe_only_from_subscribed subscribed_service "asset.mainnet.0xABC").2
      subscribed_client rfl (by decide)).2⟩

/-! ## Life cycle: `start`, `shutdown`, `is_connected` -/

/-- The guards of `start`: when the notifications, the Pusher section or its
options are absent, or the key or the cluster is absent or empty, `start`
returns after its `shutdown` without creating a client. -/
theorem start_returns_without_key_or_cluster (service : PusherEventService)
    (platform : Platform) (hplatform : service.platform = some platform)
    (hmissing : platform.notifications = none ∨
      ∃ n, platform.notifications = some n ∧
        (n.pusher = none ∨
          ∃ p, n.pusher = some p ∧
            (p.options = none ∨
              ∃ o, p.options = some o ∧
                (p.key = none ∨ p.key = some "" ∨ o.cluster = none ∨ o.cluster = some "")))) :
    service.start = .ok service.shutdown := by
  have hsp : service.shutdown.platform = some platform := by
    unfold shutdown
    split <;> exact hplatform
  unfold start
  simp only [hsp]
  rcases hmissing with hn | ⟨n, hn, hp | ⟨p, hp, ho | ⟨o, ho, hk⟩⟩⟩
  · simp [hn]
  · simp [hn, hp]
  · simp [hn, hp, ho]
  · simp only [hn, hp, ho]
    rcases hk with hk | hk | hk | hk <;> simp [hk]

/-- On a service without client, `is_connected()` is false, and it stays false
over `shutdown()`, which finds nothing to disconnect. -/
theorem is_connected_without_client (service : PusherEventService)
    (hclient : service.impl.get_client = none) :
    service.is_connected = false ∧ service.shutdown = service ∧
      service.shutdown.is_connected = false := by
  have h1 : service.is_connected = false := by
    unfold is_connected
    rw [hclient]
  have h2 : service.shutdown = service := by
    unfold shutdown
    rw [hclient]
  exact ⟨h1, h2, by rw [h2]; exact h1⟩

/-- With every parameter present, `start` on a new service creates the client
and asks it to connect. -/
theorem start_on_complete_platform :
    (PusherEventService.new true).start_with complete_platform = .ok started_service ∧
    started_service.requests = [.connect] := by
  exact ⟨rfl, rfl⟩

/-- C8, at the failing input. The platform carries the notifications, the
Pusher section, the key `app-key` and the cluster `eu`, and no encryption flag.
`start` passes its guards, which test the key and the cluster only, and reads
`encrypted.value()`: the call fails with `bad_optional_access` instead of
returning silently. -/
theorem start_without_encrypted_flag_fails :
    (PusherEventService.new true).start_with
        ⟨some ⟨some ⟨some "app-key", some ⟨some "eu", none⟩⟩⟩⟩
      = .error .bad_optional_access := by
  rfl

/-! ## Registry -/

/-- C10. For every event type, looking up the wire key of the definition of the type
in `map` with `get_from_key` gives a definition of that same type. -/
theorem get_from_key_of_definition_key (t : EventType) :
    (EventTypeDef.get_from_key (EventTypeDef.at_type t).key).type = t := by
  cases t <;> rfl

/-- The table `map` is a map: no event type is listed twice, and every entry
holds a definition of the type it is listed under. -/
theorem map_entries_well_formed :
    (EventTypeDef.map.map (fun e => e.1)).Nodup ∧
    EventTypeDef.map.all (fun e => e.1 == e.2.type) = true := by
  exact ⟨by decide, by decide⟩

/-- C11. In the table `EventTypeDef::map` no two definitions have the same wire
key, and the only definition whose wire key is the empty string is the one of
`UNKNOWN`. -/
theorem wire_keys_unique_and_only_unknown_empty :
    (EventTypeDef.map.map (fun e => e.2.key)).Nodup ∧
    EventTypeDef.map.filter (fun e => e.2.key == "") = [(.UNKNOWN, EventTypeDef.unknown)] := by
  exact ⟨by decide, by decide⟩

theorem values_nodup : EventTypeDef.values.Nodup := by
  have h : (EventTypeDef.values.map (fun d => d.key)).Nodup := by decide
  exact List.Nodup.of_map _ h

/-- C12. For the family `player` the filter gives the five player definitions
of the table, each once and in the order of the table, and these are all the
definitions whose family list holds `player`. For every list of families the
result is a sub-sequence of the definitions in table order without repetition,
and a definition is in it exactly when it is in the table, is not the `UNKNOWN`
definition, and has a family in the list. -/
theorem filter_by_channel_types_gives_family_definitions :
    EventTypeDef.filter_by_channel_types ["player"]
      = [ EventTypeDef.at_type .PLAYER_CREATED, EventTypeDef.at_type .PLAYER_DELETED,
          EventTypeDef.at_type .PLAYER_LINKED, EventTypeDef.at_type .PLAYER_UNLINKED,
          EventTypeDef.at_type .PLAYER_UPDATED ] ∧
    EventTypeDef.values.filter (fun d => d.channels.contains "player")
      = EventTypeDef.filter_by_channel_types ["player"] ∧
    (∀ channels : List String,
      (EventTypeDef.filter_by_channel_types channels).Sublist EventTypeDef.values ∧
      (EventTypeDef.filter_by_channel_types channels).Nodup ∧
      ∀ d : EventTypeDef, d ∈ EventTypeDef.filter_by_channel_types channels ↔
        (d ∈ EventTypeDef.values ∧ d.type ≠ .UNKNOWN ∧ ∃ f, f ∈ d.channels ∧ f ∈ channels)) := by
  refine ⟨by decide, by decide, ?_⟩
  intro channels
  refine ⟨List.filter_sublist _, List.Nodup.sublist (List.filter_sublist _) values_nodup, ?_⟩
  intro d
  unfold EventTypeDef.filter_by_channel_types
  rw [List.mem_filter]
  simp

/-! ## Dispatch when a callback throws -/

theorem notify_listeners_throwing_of_none (throws : Nat → Bool) (ev : NotificationEvent) :
    ∀ ls : List EventListenerRegistration,
      (∀ r ∈ ls, r.matcher ev.type = true → throws r.listener = false) →
      notify_listeners_throwing throws ls ev = (notify_listeners ls ev, none) := by
  intro ls
  induction ls with
  | nil => intro _; rfl
  | cons a t ih =>
    intro h
    have ht := ih (fun r hr => h r (List.mem_cons_of_mem a hr))
    by_cases hm : a.matcher ev.type = true
    · have ha := h a (List.mem_cons_self a t) hm
      simp [notify_listeners_throwing, notify_listeners, hm, ha, ht]
    · simp [notify_listeners_throwing, notify_listeners, hm, ht]

theorem notify_listeners_throwing_at_first (throws : Nat → Bool) (ev : NotificationEvent)
    (r : EventListenerRegistration) (post : List EventListenerRegistration)
    (hr : r.matcher ev.type = true) (ht : throws r.listener = true) :
    ∀ pre : List EventListenerRegistration,
      (∀ q ∈ pre, q.matcher ev.type = true → throws q.listener = false) →
      notify_listeners_throwing throws (pre ++ r :: post) ev
        = (notify_listeners pre ev ++ [(r.listener, ev)], some r.listener) := by
  intro pre
  induction pre with
  | nil =>
    intro _
    simp [notify_listeners_throwing, notify_listeners, hr, ht]
  | cons a t ih =>
    intro h
    have hrest := ih (fun q hq => h q (List.mem_cons_of_mem a hq))
    by_cases hm : a.matcher ev.type = true
    · have ha := h a (List.mem_cons_self a t) hm
      simp [notify_listeners_throwing, notify_listeners, hm, ha, hrest]
    · simp [notify_listeners_throwing, notify_listeners, hm, hrest]

theorem on_event_throwing_eq (throws : Nat → Bool) (service : PusherEventService)
    (event : PusherEvent)
    (hc : (EventTypeDef.get_from_key (event.event_name.getD "")).type ≠ .UNKNOWN) :
    on_event_throwing throws service event
      = (⟨(on_event service event).log,
          (notify_listeners_throwing throws service.listeners
            ⟨(EventTypeDef.get_from_key (event.event_name.getD "")).type,
              event.channel_name.getD "", event.data.getD ""⟩).1⟩,
         (notify_listeners_throwing throws service.listeners
            ⟨(EventTypeDef.get_from_key (event.event_name.getD "")).type,
              event.channel_name.getD "", event.data.getD ""⟩).2) := by
  unfold on_event_throwing on_event
  by_cases hl : service.listeners.isEmpty = true
  · have : service.listeners = [] := List.isEmpty_iff.mp hl
    simp [this, notify_listeners_throwing, hc]
  · simp [hl, hc]

theorem on_event_throwing_of_unknown (throws : Nat → Bool) (service : PusherEventService)
    (event : PusherEvent)
    (hc : (EventTypeDef.get_from_key (event.event_name.getD "")).type = .UNKNOWN) :
    on_event_throwing throws service event = (on_event service event, none) := by
  unfold on_event_throwing on_event
  by_cases hl : service.listeners.isEmpty = true
  · simp [hl]
  · simp [hl, hc]

/-- C13, the claim fails here: listeners 1 and 3 both accept `ASSET_MINTED`
and the callback of listener 1 throws. The dispatch calls listener 1 only,
listener 3, registered after it, is not notified, and the exception of
listener 1 leaves `on_event`. -/
theorem on_event_throwing_skips_later_listener :
    registration_default.matcher .ASSET_MINTED = true ∧
    registration_allow.matcher .ASSET_MINTED = true ∧
    (on_event_throwing (fun L => L == 1) service_three_listeners asset_minted_event).1.notified
      = [(1, asset_minted_notification)] ∧
    (3, asset_minted_notification) ∉
      (on_event_throwing (fun L => L == 1) service_three_listeners asset_minted_event).1.notified ∧
    (on_event_throwing (fun L => L == 1) service_three_listeners asset_minted_event).2
      = some 1 := by
  decide

/-- C13 as amended. When no listener that accepts the event has a throwing
callback, the dispatch is the one of `on_event` and nothing is thrown. When the
first accepting listener with a throwing callback is `r`, the accepting
listeners registered before `r` and `r` itself are called, no listener
registered after `r` is called, and the exception of `r` leaves `on_event`. -/
theorem on_event_throwing_ends_at_first_failure (throws : Nat → Bool)
    (service : PusherEventService) (event : PusherEvent) :
    ((∀ r ∈ service.listeners,
        r.matcher (EventTypeDef.get_from_key (event.event_name.getD "")).type = true →
        throws r.listener = false) →
      on_event_throwing throws service event = (on_event service event, none)) ∧
    (∀ (pre post : List EventListenerRegistration) (r : EventListenerRegistration),
      service.listeners = pre ++ r :: post →
      (EventTypeDef.get_from_key (event.event_name.getD "")).type ≠ .UNKNOWN →
      r.matcher (EventTypeDef.get_from_key (event.event_name.getD "")).type = true →
      throws r.listener = true →
      (∀ q ∈ pre,
        q.matcher (EventTypeDef.get_from_key (event.event_name.getD "")).type = true →
        throws q.listener = false) →
      (on_event_throwing throws service event).1.notified
        = notify_listeners pre
            ⟨(EventTypeDef.get_from_key (event.event_name.getD "")).type,
              event.channel_name.getD "", event.data.getD ""⟩
          ++ [(r.listener,
                ⟨(EventTypeDef.get_from_key (event.event_name.getD "")).type,
                  event.channel_name.getD "", event.data.getD ""⟩)] ∧
      (on_event_throwing throws service event).2 = some r.listener) := by
  constructor
  · intro hnone
    by_cases hc : (EventTypeDef.get_from_key (event.event_name.getD "")).type = .UNKNOWN
    · exact on_event_throwing_of_unknown throws service event hc
    · rw [on_event_throwing_eq throws service event hc,
        notify_listeners_throwing_of_none throws _ service.listeners hnone]
      have hn := on_event_notified service event
      rw [if_neg hc] at hn
      rw [← hn]
  · intro pre post r hls hc hr ht hpre
    rw [on_event_throwing_eq throws service event hc, hls,
      notify_listeners_throwing_at_first throws _ r post hr ht pre hpre]
    exact ⟨rfl, rfl⟩

/-- C13 as amended, worked cases: with no throwing callback the asset-minted
event reaches listeners 1 and 3 as in `on_event`; when the callback of
listener 3 throws, listener 1 before it has been called and the exception
leaves `on_event`. -/
theorem on_event_throwing_ends_at_first_failure_witness :
    on_event_throwing (fun _ => false) service_three_listeners asset_minted_event
      = (on_event service_three_listeners asset_minted_event, none) ∧
    (on_event_throwing (fun L => L == 3) service_three_listeners asset_minted_event).1.notified
      = notify_listeners [registration_default, registration_deny] asset_minted_notification
        ++ [(3, asset_minted_notification)] ∧
    (on_event_throwing (fun L => L == 3) service_three_listeners asset_minted_event).2
      = some 3 :=
  ⟨(on_event_throwing_ends_at_first_failure (fun _ => false) service_three_listeners
      asset_minted_event).1 (fun _ _ _ => rfl),
    ((on_event_throwing_ends_at_first_failure (fun L => L == 3) service_three_listeners
      asset_minted_event).2 [registration_default, registration_deny] [] registration_allow
      rfl (by decide) (by decide) (by decide) (by decide)).1,
    ((on_event_throwing_ends_at_first_failure (fun L => L == 3) service_three_listeners
      asset_minted_event).2 [registration_default, registration_deny] [] registration_allow
      rfl (by decide) (by decide) (by decide) (by decide)).2⟩

/-! ## Binding after `subscribe` -/

/-- Whenever `start` leaves a client in place, the dispatch listener exists,
provided that held before the call. -/
theorem start_keeps_listener_with_client (service s1 : PusherEventService)
    (hinv : service.impl.get_client ≠ none → service.listener = true)
    (hstart : service.start = .ok s1) :
    s1.impl.get_client ≠ none → s1.listener = true := by
  have hsh : service.shutdown.impl.get_client ≠ none → service.shutdown.listener = true := by
    unfold shutdown
    cases hclient : service.impl.get_client with
    | none => simp [hclient]
    | some c =>
      intro _
      exact hinv (by rw [hclient]; exact Option.some_ne_none c)
  unfold start at hstart
  simp only at hstart
  split at hstart
  · cases hstart
  · split at hstart
    · cases hstart; exact hsh
    · split at hstart
      · cases hstart; exact hsh
      · split at hstart
        · cases hstart; exact hsh
        · split at hstart
          · cases hstart; exact hsh
          · split at hstart
            · cases hstart
              intro _
              rfl
            · cases hstart

/-- The wire keys that `bind` binds for a channel are pairwise different. -/
theorem filter_by_channel_type_keys_nodup (channels : List String) :
    ((EventTypeDef.filter_by_channel_type channels).map (fun d => d.key)).Nodup := by
  have h : (EventTypeDef.values.map (fun d => d.key)).Nodup := by decide
  exact List.Nodup.sublist (List.Sublist.map _ (List.filter_sublist _)) h

/-- A wire key is bound for a channel exactly when it is the key of an entry of
the table `map` that is not the `UNKNOWN` entry and lists the family of the
channel. -/
theorem mem_filter_by_channel_type_keys (channel key : String) :
    key ∈ (EventTypeDef.filter_by_channel_type [channel]).map (fun d => d.key) ↔
      ∃ e ∈ EventTypeDef.map, e.2.type ≠ .UNKNOWN ∧
        EventTypeDef.channel_family channel ∈ e.2.channels ∧ e.2.key = key := by
  simp only [EventTypeDef.filter_by_channel_type, EventTypeDef.filter_by_channel_types,
    EventTypeDef.values, List.map_cons, List.map_nil, List.mem_map, List.mem_filter]
  constructor
  · rintro ⟨d, ⟨⟨e, he, rfl⟩, hd⟩, rfl⟩
    have hd2 : e.2.type ≠ .UNKNOWN ∧ EventTypeDef.channel_family channel ∈ e.2.channels := by
      simpa using hd
    exact ⟨e, he, hd2.1, hd2.2, rfl⟩
  · rintro ⟨e, he, hu, hf, rfl⟩
    refine ⟨e.2, ⟨⟨e, he, rfl⟩, ?_⟩, rfl⟩
    simpa using ⟨hu, hf⟩

/-- C14. On a service with a client and the dispatch listener, a
`subscribe(channel)` that is not a no-op adds to the requests of the client the
subscribe message for the channel and, right after it, one bind request for
each of a list of wire keys, every one bound to the dispatch listener, and
nothing else. The keys are pairwise different, and a key is among them exactly
when it is the wire key of a definition of the table, other than `UNKNOWN`,
whose families hold the family of the channel; for a channel of the family
`player` they are the keys of the five player definitions, in the order of the
table. `subscribe_to_player` is that call for the topic of the player
channel. -/
theorem subscribe_binds_keys_of_family (names : ChannelNames) (service : PusherEventService)
    (pusher_client : PusherClient) (channel : String)
    (hclient : service.impl.get_client = some pusher_client)
    (hnew : pusher_client.is_subscribed_or_pending channel = false)
    (hlistener : service.listener = true) :
    ∃ (s1 : PusherEventService) (keys : List String),
      service.subscribe channel = .ok s1 ∧
      s1.requests
        = service.requests ++ Request.subscribe channel ::
            keys.map (fun key => Request.bind key true) ∧
      keys.Nodup ∧
      (∀ key : String, key ∈ keys ↔
        ∃ e ∈ EventTypeDef.map, e.2.type ≠ .UNKNOWN ∧
          EventTypeDef.channel_family channel ∈ e.2.channels ∧ e.2.key = key) ∧
      (EventTypeDef.channel_family channel = "player" →
        keys = [ "EnjinCloud\\Events\\PlayerCreated", "EnjinCloud\\Events\\PlayerDeleted",
                 "EnjinCloud\\Events\\PlayerLinked", "EnjinCloud\\Events\\PlayerUnlinked",
                 "EnjinCloud\\Events\\PlayerUpdated" ]) ∧
      (∀ (platform : Platform) (project : Int) (player : String),
        service.platform = some platform →
        names.PlayerChannel platform project player = .ok channel →
        service.subscribe_to_player names project player = .ok s1) := by
  have hs := subscribe_of_client service pusher_client channel hclient
  rw [hnew] at hs
  simp only [Bool.false_eq_true, if_false] at hs
  refine ⟨_, (EventTypeDef.filter_by_channel_type [channel]).map (fun d => d.key), hs, ?_,
    filter_by_channel_type_keys_nodup [channel], mem_filter_by_channel_type_keys channel, ?_, ?_⟩
  · obtain ⟨_, _, h3⟩ := foldl_bind service.listener
      (EventTypeDef.filter_by_channel_type [channel]) (pusher_client.subscribe channel)
    simp only [requests, PusherEventServiceImpl.get_client] at hclient ⊢
    rw [h3, hclient, hlistener]
    simp [PusherClient.subscribe, Function.comp_def]
  · intro hfamily
    simp only [EventTypeDef.filter_by_channel_type, List.map_cons, List.map_nil, hfamily]
    decide
  · intro platform project player hplatform hname
    rw [subscribe_to_player_eq names service platform project player hplatform, hname]
    exact hs

/-- C14, worked case: on the started service, `subscribe_to_player` for player
7 of project 5 subscribes the topic `player.mainnet.5.7`, whose family is
`player`: the requests of the client are then the connect request, the
subscribe message and the bind requests for the five player keys. -/
theorem subscribe_binds_keys_of_family_witness :
    started_service.impl.get_client = some started_client ∧
    started_client.is_subscribed_or_pending "player.mainnet.5.7" = false ∧
    started_service.listener = true ∧
    EventTypeDef.channel_family "player.mainnet.5.7" = "player" ∧
    example_names.PlayerChannel complete_platform 5 "7" = .ok "player.mainnet.5.7" ∧
    (∃ (s1 : PusherEventService) (keys : List String),
      started_service.subscribe "player.mainnet.5.7" = .ok s1 ∧
      s1.requests
        = started_service.requests ++ Request.subscribe "player.mainnet.5.7" ::
            keys.map (fun key => Request.bind key true) ∧
      keys.Nodup ∧
      (∀ key : String, key ∈ keys ↔
        ∃ e ∈ EventTypeDef.map, e.2.type ≠ .UNKNOWN ∧
          EventTypeDef.channel_family "player.mainnet.5.7" ∈ e.2.channels ∧ e.2.key = key) ∧
      (EventTypeDef.channel_family "player.mainnet.5.7" = "player" →
        keys = [ "EnjinCloud\\Events\\PlayerCreated", "EnjinCloud\\Events\\PlayerDeleted",
                 "EnjinCloud\\Events\\PlayerLinked", "EnjinCloud\\Events\\PlayerUnlinked",
                 "EnjinCloud\\Events\\PlayerUpdated" ]) ∧
      (∀ (platform : Platform) (project : Int) (player : String),
        started_service.platform = some platform →
        example_names.PlayerChannel platform project player = .ok "player.mainnet.5.7" →
        started_service.subscribe_to_player example_names project player = .ok s1)) ∧
    (∃ s1, started_service.subscribe_to_player example_names 5 "7" = .ok s1 ∧
      s1.requests
        = [ .connect, .subscribe "player.mainnet.5.7",
            .bind "EnjinCloud\\Events\\PlayerCreated" true,
            .bind "EnjinCloud\\Events\\PlayerDeleted" true,
            .bind "EnjinCloud\\Events\\PlayerLinked" true,
            .bind "EnjinCloud\\Events\\PlayerUnlinked" true,
            .bind "EnjinCloud\\Events\\PlayerUpdated" true ]) :=
  ⟨rfl, by decide, rfl, by decide, rfl,
    subscribe_binds_keys_of_family example_names started_service started_client
      "player.mainnet.5.7" rfl (by decide) rfl,
    ⟨_, rfl, by decide⟩⟩

/-! ## Order of the callbacks -/

/-- For an event whose type `c` is not `UNKNOWN`, the listeners called by
`on_event`, in the order of the calls, are the listeners of the registrations
that accept `c`, in the order of the collection; so the calls follow the order
of registration, and a listener registered anew, which `cache_registration`
appends, is called after all the others. -/
theorem on_event_order_of_registration (service : PusherEventService)
    (event : PusherEvent) (c : EventType)
    (hkey : (EventTypeDef.get_from_key (event.event_name.getD "")).type = c)
    (hc : c ≠ .UNKNOWN) :
    (on_event service event).notified.map Prod.fst
      = (service.listeners.filter (fun r => r.matcher c)).map (fun r => r.listener) ∧
    ((on_event service event).notified.map Prod.fst).Sublist
      (service.listeners.map (fun r => r.listener)) ∧
    (∀ cfg : RegistrationListenerConfiguration, service.is_registered cfg.listener = false →
      (on_event (service.cache_registration cfg).2 event).notified
        = (on_event service event).notified
          ++ if cfg.matcher c then
              [(cfg.listener, ⟨c, event.channel_name.getD "", event.data.getD ""⟩)]
             else []) := by
  subst hkey
  have hout : ∀ s : PusherEventService, (on_event s event).notified
      = (s.listeners.filter (fun r => r.matcher
            (EventTypeDef.get_from_key (event.event_name.getD "")).type)).map
          (fun r => (r.listener,
            (⟨(EventTypeDef.get_from_key (event.event_name.getD "")).type,
              event.channel_name.getD "", event.data.getD ""⟩ : NotificationEvent))) := by
    intro s
    rw [on_event_notified, if_neg hc, notify_listeners_eq]
  have hfst : (on_event service event).notified.map Prod.fst
      = (service.listeners.filter (fun r => r.matcher
            (EventTypeDef.get_from_key (event.event_name.getD "")).type)).map
          (fun r => r.listener) := by
    rw [hout, List.map_map]
    rfl
  refine ⟨hfst, ?_, ?_⟩
  · rw [hfst]
    exact List.Sublist.map _ (List.filter_sublist _)
  · intro cfg hreg
    rw [cache_registration_unregistered service cfg hreg, hout, hout]
    simp only [List.filter_append, List.map_append]
    congr 1
    by_cases hm : cfg.matcher (EventTypeDef.get_from_key (event.event_name.getD "")).type = true
    · simp [List.filter_cons, RegistrationListenerConfiguration.create, hm]
    · simp [List.filter_cons, RegistrationListenerConfiguration.create, hm]

/-! ## `shutdown` twice -/

/-- C16. A second `shutdown()` leaves the service as the first one left it in
everything but the record of requests: the client is present after both or
after neither, it reports the same connection state, `is_connected()` reads the
same, the subscription states, the listener collection and the platform are
the same. The second call asks a present client to disconnect once more. On a
service without client `shutdown()` changes nothing. -/
theorem shutdown_twice_as_once (service : PusherEventService) :
    service.shutdown.shutdown.impl.get_client.isSome
      = service.shutdown.impl.get_client.isSome ∧
    service.shutdown.shutdown.impl.get_client.map PusherClient.get_state
      = service.shutdown.impl.get_client.map PusherClient.get_state ∧
    service.shutdown.shutdown.is_connected = service.shutdown.is_connected ∧
    (∀ channel : String, service.shutdown.shutdown.subscription_state channel
      = service.shutdown.subscription_state channel) ∧
    service.shutdown.shutdown.listeners = service.shutdown.listeners ∧
    service.shutdown.shutdown.platform = service.shutdown.platform ∧
    service.shutdown.shutdown.requests
      = service.shutdown.requests
        ++ (if service.impl.get_client.isSome then [Request.disconnect] else []) ∧
    (service.impl.get_client = none → service.shutdown = service) := by
  cases hclient : service.impl.get_client with
  | none =>
    have h : service.shutdown = service := by
      unfold shutdown
      rw [hclient]
    rw [h, h]
    simp [hclient]
  | some c =>
    have h1 : service.shutdown = { service with impl := ⟨some c.disconnect⟩ } := by
      unfold shutdown
      rw [hclient]
    have h2 : service.shutdown.shutdown
        = { service with impl := ⟨some c.disconnect.disconnect⟩ } := by
      rw [h1]
      rfl
    rw [h2, h1]
    simp [PusherEventServiceImpl.get_client, is_connected, subscription_state, requests,
      PusherClient.disconnect, PusherClient.get_state]

/-- C16, worked case: the service without client is left alone, and on the
started service two calls of `shutdown()` record two disconnect requests and
leave the client in place. -/
theorem shutdown_twice_as_once_witness :
    (PusherEventService.new true).impl.get_client = none ∧
    (PusherEventService.new true).shutdown = PusherEventService.new true ∧
    started_service.shutdown.shutdown.impl.get_client.isSome
      = started_service.shutdown.impl.get_client.isSome ∧
    started_service.shutdown.shutdown.requests
      = started_service.shutdown.requests
        ++ (if started_service.impl.get_client.isSome then [Request.disconnect] else []) :=
  ⟨rfl, (shutdown_twice_as_once (PusherEventService.new true)).2.2.2.2.2.2.2 rfl,
    (shutdown_twice_as_once started_service).1,
    (shutdown_twice_as_once started_service).2.2.2.2.2.2.1⟩

/-! ## Subscription reads and calls without a client -/

/-- With a client, a platform and a project channel that can be constructed,
the read `is_subscribed_to_project` returns what the client holds for the
topic. -/
theorem is_subscribed_to_project_with_client (names : ChannelNames)
    (service : PusherEventService) (pusher_client : PusherClient) (platform : Platform)
    (project : Int) (channel : String)
    (hclient : service.impl.get_client = some pusher_client)
    (hplatform : service.platform = some platform)
    (hname : names.ProjectChannel platform project = .ok channel) :
    service.is_subscribed_to_project names project
      = .ok (pusher_client.is_subscribed channel) := by
  simp only [is_subscribed_to_project, hclient, platform_value, hplatform]
  show (names.ProjectChannel platform project >>=
    fun channel => Except.ok (pusher_client.is_subscribed channel)) = _
  rw [hname]
  rfl

/-- C18, at the failing input. On a service built with a platform and never
started there is no client, and each of the four reads dereferences the null
client pointer: the outcome is undefined behaviour, not `false`. -/
theorem is_subscribed_reads_dereference_null_client :
    (PusherEventService.new_with_platform true complete_platform).impl.get_client = none ∧
    (PusherEventService.new_with_platform true complete_platform).is_subscribed_to_project
        example_names 5 = .error .undefined_behaviour ∧
    (PusherEventService.new_with_platform true complete_platform).is_subscribed_to_player
        example_names 5 "7" = .error .undefined_behaviour ∧
    (PusherEventService.new_with_platform true complete_platform).is_subscribed_to_asset
        example_names "0xABC" = .error .undefined_behaviour ∧
    (PusherEventService.new_with_platform true complete_platform).is_subscribed_to_wallet
        example_names "0xDEF" = .error .undefined_behaviour := by
  exact ⟨rfl, rfl, rfl, rfl, rfl⟩

/-- On a service without client, a successful `start` either returns the
service as it is or installs a new client that has been asked to connect. -/
theorem start_without_client (service s2 : PusherEventService)
    (hclient : service.impl.get_client = none) (hstart : service.start = .ok s2) :
    s2 = service ∨
      ∃ (key : String) (options : pusher.PusherOptions),
        s2 = init_client { service with listener := true } key options := by
  have hsh : service.shutdown = service := by
    unfold shutdown
    rw [hclient]
  unfold start at hstart
  simp only [hsh] at hstart
  split at hstart
  · cases hstart
  · split at hstart
    · cases hstart; exact Or.inl rfl
    · split at hstart
      · cases hstart; exact Or.inl rfl
      · split at hstart
        · cases hstart; exact Or.inl rfl
        · split at hstart
          · cases hstart; exact Or.inl rfl
          · split at hstart
            · cases hstart
              exact Or.inr ⟨_, _, rfl⟩
            · cases hstart

/-- On a service without client, the client that a successful `start` leaves,
if any, has made the connect request and no other, and holds every channel as
`Unsubscribed`. -/
theorem start_without_client_requests (service s2 : PusherEventService) (channel : String)
    (hclient : service.impl.get_client = none) (hstart : service.start = .ok s2) :
    (s2.requests = [] ∨ s2.requests = [.connect]) ∧
    s2.subscription_state channel = .Unsubscribed := by
  rcases start_without_client service s2 hclient hstart with h | ⟨key, options, h⟩
  · subst h
    constructor
    · left
      unfold requests
      rw [hclient]
    · unfold subscription_state
      rw [hclient]
  · subst h
    exact ⟨Or.inr rfl, rfl⟩

/-- C19. On a service without client, `subscribe(channel)` succeeds and returns
the service as it is, and `unsubscribe(channel)` returns the service as it is:
the service holds no request of a client, before or after, and nothing is
stored, so a `start` made after the two calls is the `start` of the untouched
service. -/
theorem subscribe_without_client_is_noop (service : PusherEventService) (channel : String)
    (hclient : service.impl.get_client = none) :
    service.subscribe channel = .ok service ∧
    service.unsubscribe channel = service ∧
    service.requests = [] ∧
    (∀ s1, service.subscribe channel = .ok s1 →
      s1 = service ∧ s1.requests = [] ∧ (s1.unsubscribe channel).start = service.start) := by
  have hsub : service.subscribe channel = .ok service := by
    unfold subscribe
    rw [hclient]
  have hunsub : service.unsubscribe channel = service := by
    unfold unsubscribe
    rw [hclient]
  have hreq : service.requests = [] := by
    unfold requests
    rw [hclient]
  refine ⟨hsub, hunsub, hreq, ?_⟩
  intro s1 hs1
  rw [hsub] at hs1
  cases hs1
  rw [hunsub]
  exact ⟨rfl, hreq, rfl⟩

/-- C19, worked case: on the service built with the complete platform and not
yet started, `subscribe` and `unsubscribe` for `asset.mainnet.0xABC` change
nothing, and the `start` that follows is the `start` of the new service. -/
theorem subscribe_without_client_is_noop_witness :
    (PusherEventService.new_with_platform true complete_platform).impl.get_client = none ∧
    (PusherEventService.new_with_platform true complete_platform).subscribe
        "asset.mainnet.0xABC"
      = .ok (PusherEventService.new_with_platform true complete_platform) ∧
    (PusherEventService.new_with_platform true complete_platform).unsubscribe
        "asset.mainnet.0xABC"
      = PusherEventService.new_with_platform true complete_platform ∧
    (PusherEventService.new_with_platform true complete_platform).requests = [] ∧
    (((PusherEventService.new_with_platform true complete_platform).unsubscribe
        "asset.mainnet.0xABC").start
      = (PusherEventService.new_with_platform true complete_platform).start) ∧
    (PusherEventService.new_with_platform true complete_platform).start = .ok started_service ∧
    started_service.requests = [.connect] :=
  ⟨rfl,
    (subscribe_without_client_is_noop (PusherEventService.new_with_platform true
      complete_platform) "asset.mainnet.0xABC" rfl).1,
    (subscribe_without_client_is_noop (PusherEventService.new_with_platform true
      complete_platform) "asset.mainnet.0xABC" rfl).2.1,
    (subscribe_without_client_is_noop (PusherEventService.new_with_platform true
      complete_platform) "asset.mainnet.0xABC" rfl).2.2.1,
    ((subscribe_without_client_is_noop (PusherEventService.new_with_platform true
      complete_platform) "asset.mainnet.0xABC" rfl).2.2.2
        (PusherEventService.new_with_platform true complete_platform) rfl).2.2,
    rfl, rfl⟩

/-! ## Dispatch when a callback calls back into the service -/

theorem call_of_unchanged (service : PusherEventService) (c : ListenerCall)
    (h : service.changes_listeners c = false) : service.call c = service := by
  have hreg : ∀ cfg : RegistrationListenerConfiguration,
      service.is_registered cfg.listener = true → (service.cache_registration cfg).2 = service := by
    intro cfg hr
    obtain ⟨r, hfind⟩ := Option.isSome_iff_exists.mp hr
    rw [cache_registration_registered service cfg r hfind]
  cases c with
  | register_listener l =>
    exact hreg (RegistrationListenerConfiguration.new l) (by simpa [changes_listeners] using h)
  | register_listener_with_matcher l m =>
    exact hreg ((RegistrationListenerConfiguration.new l).with_matcher m)
      (by simpa [changes_listeners] using h)
  | register_listener_including_types l ts =>
    exact hreg ((RegistrationListenerConfiguration.new l).with_allowed_events ts)
      (by simpa [changes_listeners] using h)
  | register_listener_excluding_types l ts =>
    exact hreg ((RegistrationListenerConfiguration.new l).with_ignored_events ts)
      (by simpa [changes_listeners] using h)
  | unregister_listener l =>
    have hne := (is_registered_eq_false_iff service l).mp (by simpa [changes_listeners] using h)
    have herase : service.listeners.eraseP (fun r => r.listener == l) = service.listeners := by
      apply List.eraseP_of_forall_not
      intro q hq
      simpa using hne q hq
    show service.unregister_listener l = service
    unfold unregister_listener
    rw [herase]

theorem calls_of_unchanged (cs : List ListenerCall) :
    ∀ service : PusherEventService, calls_change_listeners service cs = false →
      service.calls cs = service := by
  induction cs with
  | nil => intro service _; rfl
  | cons c rest ih =>
    intro service h
    simp only [calls_change_listeners, Bool.or_eq_false_iff] at h
    have hc := call_of_unchanged service c h.1
    have hrest := h.2
    rw [hc] at hrest
    show (service.call c).calls rest = service
    rw [hc]
    exact ih service hrest

theorem notify_listeners_reentrant_of_unchanged (reaction : Nat → List ListenerCall)
    (service : PusherEventService) (ev : NotificationEvent) :
    ∀ ls : List EventListenerRegistration,
      (∀ r ∈ ls, r.matcher ev.type = true →
        calls_change_listeners service (reaction r.listener) = false) →
      notify_listeners_reentrant reaction service ls ev = .ok (notify_listeners ls ev, service) := by
  intro ls
  induction ls with
  | nil => intro _; rfl
  | cons a t ih =>
    intro h
    have ht := ih (fun r hr => h r (List.mem_cons_of_mem a hr))
    by_cases hm : a.matcher ev.type = true
    · have ha := h a (List.mem_cons_self a t) hm
      simp [notify_listeners_reentrant, notify_listeners, hm, ha,
        calls_of_unchanged _ service ha, ht]
    · simp [notify_listeners_reentrant, notify_listeners, hm, ht]

/-- C15, the claim fails here: listeners 1 and 3 are registered and accept
`ASSET_MINTED`, and the callback of listener 1 unregisters listener 3. The loop
runs over the vector itself, the erase invalidates its iterators, and the
dispatch ends in undefined behaviour instead of going on over the collection
as it was when it began. -/
theorem on_event_reentrant_unregister_is_undefined :
    service_three_listeners.is_registered 3 = true ∧
    registration_default.matcher .ASSET_MINTED = true ∧
    registration_allow.matcher .ASSET_MINTED = true ∧
    on_event_reentrant unregister_three_from_one service_three_listeners asset_minted_event
      = .error .undefined_behaviour := by
  exact ⟨by decide, by decide, by decide, rfl⟩

/-- C15 as amended. For an event whose type `c` is not `UNKNOWN`, when no
callback of an accepting listener changes the listener collection while the
dispatch runs, the dispatch ends normally, leaves the service as it was, and
calls the listeners of the accepting registrations one after another in the
order of the collection, which is the order of registration: a listener
registered anew is appended and called after all the others. -/
theorem on_event_reentrant_notifies_in_registration_order
    (reaction : Nat → List ListenerCall) (service : PusherEventService)
    (event : PusherEvent) (c : EventType)
    (hkey : (EventTypeDef.get_from_key (event.event_name.getD "")).type = c)
    (hc : c ≠ .UNKNOWN)
    (hquiet : ∀ r ∈ service.listeners, r.matcher c = true →
      calls_change_listeners service (reaction r.listener) = false) :
    on_event_reentrant reaction service event = .ok (on_event service event, service) ∧
    (on_event service event).notified.map Prod.fst
      = (service.listeners.filter (fun r => r.matcher c)).map (fun r => r.listener) ∧
    ((on_event service event).notified.map Prod.fst).Sublist
      (service.listeners.map (fun r => r.listener)) ∧
    (∀ cfg : RegistrationListenerConfiguration, service.is_registered cfg.listener = false →
      (on_event (service.cache_registration cfg).2 event).notified
        = (on_event service event).notified
          ++ if cfg.matcher c then
              [(cfg.listener, ⟨c, event.channel_name.getD "", event.data.getD ""⟩)]
             else []) := by
  refine ⟨?_, on_event_order_of_registration service event c hkey hc⟩
  subst hkey
  unfold on_event_reentrant on_event
  by_cases hl : service.listeners.isEmpty = true
  · simp [hl]
  · simp only [hl, hc]
    rw [notify_listeners_reentrant_of_unchanged reaction service _ service.listeners hquiet]
    simp

/-- C15 as amended, worked case: no callback calls back, and the asset-minted
event reaches listener 1 and then listener 3, the order of their
registrations. -/
theorem on_event_reentrant_notifies_in_registration_order_witness :
    (EventTypeDef.get_from_key (asset_minted_event.event_name.getD "")).type = .ASSET_MINTED ∧
    EventType.ASSET_MINTED ≠ .UNKNOWN ∧
    on_event_reentrant (fun _ => []) service_three_listeners asset_minted_event
      = .ok (on_event service_three_listeners asset_minted_event, service_three_listeners) ∧
    (on_event service_three_listeners asset_minted_event).notified.map Prod.fst
      = (service_three_listeners.listeners.filter
          (fun r => r.matcher .ASSET_MINTED)).map (fun r => r.listener) ∧
    (service_three_listeners.listeners.filter
        (fun r => r.matcher .ASSET_MINTED)).map (fun r => r.listener) = [1, 3] :=
  ⟨by decide, by decide,
    (on_event_reentrant_notifies_in_registration_order (fun _ => []) service_three_listeners
      asset_minted_event .ASSET_MINTED (by decide) (by decide) (fun _ _ _ => rfl)).1,
    (on_event_reentrant_notifies_in_registration_order (fun _ => []) service_three_listeners
      asset_minted_event .ASSET_MINTED (by decide) (by decide) (fun _ _ _ => rfl)).2.1,
    by decide⟩

end enjin.sdk.events.PusherEventService
